import Mathlib

/-!
# MultiLanguageKeyboard: the input-state controller

A shallow embedding of the virtual keyboard of `src/keyboard.js` (namespace `Src`) and of
its bundled build `dist/keyboard.js` (namespace `Dist`): the shift / caps-lock state, the
dispatch of a pressed key, the edits applied to the bound text field, the language switch
and the grid of keys that is rendered.

Modelling conventions.
* A JavaScript string is the list of its UTF-16 code units, so `length`, `slice` and
  string concatenation are the list operations.
* The bound text field is a host object (an `<input>` or `<textarea>`); it is modelled by
  its value and selection, with the host's rules for assigning `value` and for
  `setSelectionRange`. The field is assumed to keep an assigned string verbatim.
* A method that can raise a JavaScript exception returns an `Outcome`: the state reached
  (assignments made before the exception stay) and the exception, if any.
* Callbacks and dispatched events are recorded, in order, in the session's `log`; the
  callbacks are assumed to observe only, and a call of `onKeyPress` is recorded with what
  the callback finds at that moment (the field, the modifier state, the language).
-/

namespace MLK

/-! ## JavaScript strings -/

/-- A JavaScript string, as its sequence of UTF-16 code units. -/
abbrev JSString := List Nat

/-- The UTF-16 code units of one Unicode scalar value. -/
def utf16 (c : Char) : List Nat :=
  if c.toNat < 65536 then [c.toNat]
  else [55296 + (c.toNat - 65536) / 1024, 56320 + (c.toNat - 65536) % 1024]

/-- The JavaScript string denoted by a string literal. -/
def js (s : String) : JSString := s.toList.flatMap utf16

/-- The call `s.slice(a, b)` for non-negative integers `a` and `b`: the units at the
indices `i` with `a ≤ i < min b s.length`. -/
def slice (s : JSString) (a b : Nat) : JSString := (s.take b).drop a

/-- The call `s.slice(a)` for a non-negative integer `a`. -/
def sliceFrom (s : JSString) (a : Nat) : JSString := s.drop a

/-- The call `key.toLowerCase()`; the source applies it to the keys `Shift` and `Caps`
only, so the ASCII letters are all that is mapped. -/
def toLowerCase (s : JSString) : JSString :=
  s.map (fun u => if 65 ≤ u ∧ u ≤ 90 then u + 32 else u)

/-! ## The bound text field (host object) -/

/-- The state of the text field the keyboard types into. -/
structure EditTarget where
  value : JSString
  selectionStart : Nat
  selectionEnd : Nat
deriving DecidableEq, Repr

/-- The assignment `input.value = v`: the host stores `v`, and when that changes the
value it moves the cursor to the end of the text, unselecting any selected text. -/
def EditTarget.setValue (t : EditTarget) (v : JSString) : EditTarget :=
  if v = t.value then t
  else { value := v, selectionStart := v.length, selectionEnd := v.length }

/-- The call `input.setSelectionRange(start, stop)`: positions past the end of the text
point at its end, and a `stop` at or before `start` collapses the selection at `stop`. -/
def EditTarget.setSelectionRange (t : EditTarget) (start stop : Nat) : EditTarget :=
  let e := min stop t.value.length
  { t with selectionStart := min start e, selectionEnd := e }

/-- The invariant of a text field: `0 ≤ selectionStart ≤ selectionEnd ≤ value.length`. -/
def EditTarget.WellFormed (t : EditTarget) : Prop :=
  t.selectionStart ≤ t.selectionEnd ∧ t.selectionEnd ≤ t.value.length

/-! ## Layouts -/

/-- A language layout: `{ name, normal, shift }` (`types/index.d.ts`). -/
structure Layout where
  name : JSString
  normal : List (List JSString)
  shift : List (List JSString)
deriving DecidableEq, Repr

/-- What the property read `this.layouts[lang]` can give. -/
inductive PropertyValue where
  /-- The object has no such property, own or inherited. -/
  | undefined
  /-- The object has an own property `lang`, holding a layout. -/
  | layout (l : Layout)
  /-- The name `lang` is found on `Object.prototype` (a function or object without
  `name`, `normal` or `shift`). -/
  | inherited
deriving DecidableEq, Repr

/-- The property names every plain object inherits from `Object.prototype`. -/
def objectPrototypeKeys : List JSString :=
  [js "constructor", js "hasOwnProperty", js "isPrototypeOf", js "propertyIsEnumerable",
   js "toLocaleString", js "toString", js "valueOf", js "__proto__",
   js "__defineGetter__", js "__defineSetter__", js "__lookupGetter__",
   js "__lookupSetter__"]

/-- The property read `layouts[lang]` on a plain object whose own properties are the
entries of `layouts`, in the order `Object.keys` enumerates them. -/
def getLayout (layouts : List (JSString × Layout)) (lang : JSString) : PropertyValue :=
  match layouts.lookup lang with
  | some l => .layout l
  | none => if lang ∈ objectPrototypeKeys then .inherited else .undefined

/-- The entry `hindi` of `MultiLanguageKeyboard.LAYOUTS` (`dist/keyboard.js`, lines
291-295), with the string literals as they stand in the file. -/
def Dist.LAYOUTS_hindi : Layout where
  name := js "ЁЯЗоЁЯЗ│ рд╣рд┐рдиреНрджреА"
  normal := [
    [js "реК", js "рез", js "реи", js "рей", js "рек", js "рел", js "рем", js "рен", js "рео", js "реп", js "реж", js "-", js "реГ", js "Backspace"],
    [js "Tab", js "реМ", js "реИ", js "рд╛", js "реА", js "реВ", js "рдм", js "рд╣", js "рдЧ", js "рдж", js "рдЬ", js "рдб", js "рд╝", js "реЙ"],
    [js "Caps", js "реЛ", js "реЗ", js "реН", js "рд┐", js "реБ", js "рдк", js "рд░", js "рдХ", js "рдд", js "рдЪ", js "рдЯ", js "Enter"],
    [js "Shift", js "реЖ", js "рдВ", js "рдо", js "рди", js "рд╡", js "рд▓", js "рд╕", js ",", js ".", js "рдп", js "Shift"],
    [js "Ctrl", js "Win", js "Alt", js "Space", js "Alt", js "Win", js "Menu", js "Ctrl"]
  ]
  shift := [
    [js "рдТ", js "рдН", js "реЕ", js "реНрд░", js "рд░реНрдж", js "рдЯреНрда", js "рдг", js "рдШ", js "рдЩ", js "рдЭ", js "рд╝", js "рдГ", js "рд╝", js "Backspace"],
    [js "Tab", js "рдФ", js "рдР", js "рдЖ", js "рдИ", js "рдК", js "рдн", js "рдГ", js "рдЧ", js "рдз", js "рдЭ", js "рдв", js "рдЮ", js "рдС"],
    [js "Caps", js "рдУ", js "рдП", js "рдЕ", js "рдЗ", js "рдЙ", js "рдл", js "рд▒", js "рдЦ", js "рде", js "рдЫ", js "рда", js "Enter"],
    [js "Shift", js "рдО", js "рдБ", js "рдо", js "рди", js "рд╡", js "рд▓", js "рд╢", js "рд╖", js "ред", js "рдп", js "Shift"],
    [js "Ctrl", js "Win", js "Alt", js "Space", js "Alt", js "Win", js "Menu", js "Ctrl"]
  ]


/-! ## The session -/

/-- The options of the constructor that the methods read afterwards: whether the
callbacks `onKeyPress` and `onLanguageChange` are given, and `showControls`. -/
structure Options where
  language : JSString
  showControls : Bool
  onKeyPress : Bool
  onLanguageChange : Bool
deriving DecidableEq, Repr

/-- A key button of the rendered grid: its label, its CSS classes, and the key its
`onclick` handler passes to `handleKey`. -/
structure KeyBtn where
  textContent : JSString
  classList : List JSString
  onclick : JSString
deriving DecidableEq, Repr

/-- A button of the language selector; its `onclick` handler calls `switchLanguage`. -/
structure LangBtn where
  className : JSString
  textContent : JSString
  onclick : JSString
deriving DecidableEq, Repr

/-- A JavaScript exception. -/
inductive JSError where
  /-- A `TypeError`: a property read on `undefined`. -/
  | typeError
  /-- A `RangeError`: the call stack is exhausted. -/
  | rangeError
deriving DecidableEq, Repr

/-- What a callback finds when it is called: the bound field, the modifier state and the
current language of the keyboard at that moment. -/
structure Observed where
  targetInput : Option EditTarget
  isShift : Bool
  isCapsLock : Bool
  currentLanguage : JSString
deriving DecidableEq, Repr

/-- What the keyboard makes observable to its host, in the order it happens. -/
inductive Effect where
  /-- The call `this.options.onKeyPress(key)`, with what the callback finds. -/
  | onKeyPress (key : JSString) (seen : Observed)
  /-- The call `this.options.onLanguageChange(lang)`. -/
  | onLanguageChange (lang : JSString)
  /-- The call `this.emit(eventName, detail)`: a `CustomEvent` on the container. -/
  | emit (eventName : JSString) (detail : Option JSString)
  /-- The call `input.focus()`. -/
  | focus
  /-- The dispatch of an `input` event on the text field. -/
  | inputEvent
  /-- The call `console.error(message)`. -/
  | consoleError (message : JSString)
  /-- An exception raised inside an event listener: `dispatchEvent` reports it to the
  host and returns. -/
  | uncaughtError (e : JSError)
deriving DecidableEq, Repr

/-- The keyboard object: its fields, what it has rendered into its container, and the
record of its observable effects. -/
structure Session where
  options : Options
  currentLanguage : JSString
  isShift : Bool
  isCapsLock : Bool
  targetInput : Option EditTarget
  layouts : List (JSString × Layout)
  langSelector : List LangBtn
  keyboardDiv : List (List KeyBtn)
  controls : Bool
  log : List Effect
deriving DecidableEq, Repr

/-- The result of a method call: the state it leaves and the exception it raised. -/
structure Outcome where
  state : Session
  threw : Option JSError
deriving DecidableEq, Repr

/-- Sequencing: the statements after a call run only when the call returned. -/
def Outcome.andThen (o : Outcome) (f : Session → Outcome) : Outcome :=
  match o.threw with
  | some _ => o
  | none => f o.state

/-- What a callback called in the state `s` finds. -/
def Session.observed (s : Session) : Observed :=
  { targetInput := s.targetInput, isShift := s.isShift, isCapsLock := s.isCapsLock,
    currentLanguage := s.currentLanguage }

/-- Appends an effect to the record. -/
def Session.record (s : Session) (e : Effect) : Session :=
  { s with log := s.log ++ [e] }

/-- The keys of the rendered grid, row by row. -/
def gridKeys (div : List (List KeyBtn)) : List (List JSString) :=
  div.map (fun row => row.map KeyBtn.onclick)

/-- The ten labels of the `case` clauses in `handleKey`: the control tokens. -/
def controlTokens : List JSString :=
  [js "Backspace", js "Tab", js "Enter", js "Shift", js "Caps", js "Ctrl", js "Win",
   js "Alt", js "Menu", js "Space"]

/-! ## Rendering (the same in both files) -/

/-- The array literal of `renderKeys`: the keys that get the class `special`. -/
def specialKeys : List JSString :=
  [js "Backspace", js "Tab", js "Enter", js "Shift", js "Caps", js "Ctrl", js "Win",
   js "Alt", js "Menu"]

/-- The button `renderKeys` creates for one key of the grid. -/
def keyButton (s : Session) (key : JSString) : KeyBtn :=
  let textContent := if key = js "Space" then js "" else key
  let classList := [js "mlk-key"]
  let classList :=
    if key ∈ specialKeys then
      let classList := classList ++ [js "special"]
      if key = js "Enter" then classList ++ [js "extra-wide"]
      else if key = js "Shift" ∨ key = js "Caps" then
        let classList := classList ++ [js "wide", toLowerCase key]
        if (s.isShift = true ∧ key = js "Shift") ∨ (s.isCapsLock = true ∧ key = js "Caps")
        then classList ++ [js "active"]
        else classList
      else if key = js "Backspace" then classList ++ [js "wide"]
      else classList
    else if key = js "Space" then classList ++ [js "space"]
    else classList
  { textContent := textContent, classList := classList, onclick := key }

/-- The method `renderKeys`. Reading `.shift` or `.normal` of `undefined` raises a
`TypeError` at once; of an inherited property it gives `undefined`, the grid is emptied
and `layout.forEach` raises the `TypeError`. -/
def renderKeys (s : Session) : Outcome :=
  match getLayout s.layouts s.currentLanguage with
  | .undefined => { state := s, threw := some .typeError }
  | .inherited => { state := { s with keyboardDiv := [] }, threw := some .typeError }
  | .layout l =>
    let layout := if s.isShift then l.shift else l.normal
    { state := { s with keyboardDiv := layout.map (fun row => row.map (keyButton s)) },
      threw := none }

/-- The button `render` creates for one language of `Object.keys(this.layouts)`. -/
def langButton (s : Session) (entry : JSString × Layout) : LangBtn :=
  { className := js "mlk-lang-btn " ++ (if entry.1 = s.currentLanguage then js "active" else js ""),
    textContent := entry.2.name,
    onclick := entry.1 }

/-- The method `render`: the container is emptied and given the language selector, a
fresh key grid and (with `showControls`) the controls; then `renderKeys` runs. -/
def render (s : Session) : Outcome :=
  renderKeys { s with
    langSelector := s.layouts.map (langButton s),
    keyboardDiv := [],
    controls := s.options.showControls }

/-- The last statement of `handleKey`: `if (input) { input.focus(); input.dispatchEvent(...) }`. -/
def refocus (s : Session) : Session :=
  match s.targetInput with
  | some _ => (s.record .focus).record .inputEvent
  | none => s

/-- The first statement of `handleKey`: `if (this.options.onKeyPress) this.options.onKeyPress(key)`. -/
def notifyKeyPress (key : JSString) (s : Session) : Session :=
  if s.options.onKeyPress then s.record (.onKeyPress key s.observed) else s

/-- The `Backspace` case of `handleKey`, up to `this.emit`: the edit of the bound field. -/
def backspaceEdit (s : Session) : Session :=
  match s.targetInput with
  | some input =>
    let start := input.selectionStart
    let stop := input.selectionEnd
    if start = stop ∧ start > 0 then
      let input := input.setValue (slice input.value 0 (start - 1) ++ sliceFrom input.value stop)
      { s with targetInput := some (input.setSelectionRange (start - 1) (start - 1)) }
    else if start ≠ stop then
      let input := input.setValue (slice input.value 0 start ++ sliceFrom input.value stop)
      { s with targetInput := some (input.setSelectionRange start start) }
    else s
  | none => s

/-- The edit of `insertText`, the same in both files: the selected range is replaced by
`text` and the cursor is put behind it. -/
def insertEdit (text : JSString) (s : Session) : Session :=
  match s.targetInput with
  | some input =>
    let start := input.selectionStart
    let stop := input.selectionEnd
    let input := input.setValue (slice input.value 0 start ++ text ++ sliceFrom input.value stop)
    let input := input.setSelectionRange (start + text.length) (start + text.length)
    { s with targetInput := some input }
  | none => s

/-! ## `src/keyboard.js` -/

namespace Src

/-- The method `emit` for the events `input`, `backspace` and `languageChange`, which
have no listener inside the class. -/
def emit (eventName : JSString) (detail : Option JSString) (s : Session) : Session :=
  s.record (.emit eventName detail)

/-- The method `insertText` (lines 313-322). -/
def insertText (text : JSString) (s : Session) : Session :=
  emit (js "input") (some text) (insertEdit text s)

/-- The method `handleKey` (lines 247-311). -/
def handleKey (key : JSString) (s : Session) : Outcome :=
  let s := notifyKeyPress key s
  if key = js "Backspace" then
    { state := refocus (emit (js "backspace") none (backspaceEdit s)), threw := none }
  else if key = js "Space" then
    { state := refocus (insertText (js " ") s), threw := none }
  else if key = js "Enter" then
    { state := refocus (insertText (js "\n") s), threw := none }
  else if key = js "Tab" then
    { state := refocus (insertText (js "\t") s), threw := none }
  else if key = js "Shift" then
    renderKeys { s with isShift := !s.isShift }
  else if key = js "Caps" then
    let s := { s with isCapsLock := !s.isCapsLock }
    renderKeys { s with isShift := s.isCapsLock }
  else if key = js "Ctrl" ∨ key = js "Win" ∨ key = js "Alt" ∨ key = js "Menu" then
    { state := refocus s, threw := none }
  else
    let s := insertText key s
    let o : Outcome :=
      if s.isShift = true ∧ s.isCapsLock = false then renderKeys { s with isShift := false }
      else { state := s, threw := none }
    o.andThen (fun s => { state := refocus s, threw := none })

/-- The method `switchLanguage` (lines 324-336). -/
def switchLanguage (lang : JSString) (s : Session) : Outcome :=
  match getLayout s.layouts lang with
  | .undefined =>
    { state := s.record (.consoleError (js "Layout " ++ [39] ++ lang ++ [39] ++ js " not registered")),
      threw := none }
  | _ =>
    (render { s with currentLanguage := lang }).andThen (fun s =>
      let s := if s.options.onLanguageChange then s.record (.onLanguageChange lang) else s
      { state := emit (js "languageChange") (some lang) s, threw := none })

end Src

/-! ## `dist/keyboard.js` -/

namespace Dist

/-- The method `insertText` (lines 243-251). -/
def insertText (text : JSString) (s : Session) : Session :=
  insertEdit text s

/-- The method `handleKey` (lines 199-241). -/
def handleKey (key : JSString) (s : Session) : Outcome :=
  let s := notifyKeyPress key s
  if key = js "Backspace" then
    { state := refocus (backspaceEdit s), threw := none }
  else if key = js "Space" then
    { state := refocus (insertText (js " ") s), threw := none }
  else if key = js "Enter" then
    { state := refocus (insertText (js "\n") s), threw := none }
  else if key = js "Tab" then
    { state := refocus (insertText (js "\t") s), threw := none }
  else if key = js "Shift" then
    renderKeys { s with isShift := !s.isShift }
  else if key = js "Caps" then
    let s := { s with isCapsLock := !s.isCapsLock }
    renderKeys { s with isShift := s.isCapsLock }
  else if key = js "Ctrl" ∨ key = js "Win" ∨ key = js "Alt" ∨ key = js "Menu" then
    { state := refocus s, threw := none }
  else
    let s := insertText key s
    let o : Outcome :=
      if s.isShift = true ∧ s.isCapsLock = false then renderKeys { s with isShift := false }
      else { state := s, threw := none }
    o.andThen (fun s => { state := refocus s, threw := none })

/-- The method `switchLanguage` (lines 253-258). -/
def switchLanguage (lang : JSString) (s : Session) : Outcome :=
  match getLayout s.layouts lang with
  | .undefined => { state := s, threw := none }
  | _ =>
    (render { s with currentLanguage := lang }).andThen (fun s =>
      let s := if s.options.onLanguageChange then s.record (.onLanguageChange lang) else s
      { state := s, threw := none })

end Dist

/-! ## Sample sessions -/

/-- A small layout with one row per grid. -/
def sampleLayout : Layout :=
  { name := js "Sample", normal := [[js "a", js "Shift"]], shift := [[js "A", js "Shift"]] }

/-- A session on `sampleLayout` bound to a field holding `ab` with the cursor between
the two letters; `shift` and `caps` give the modifier state. -/
def sampleSession (shift caps : Bool) (target : Option EditTarget) : Session :=
  { options := { language := js "sample", showControls := true, onKeyPress := true,
                 onLanguageChange := true },
    currentLanguage := js "sample",
    isShift := shift,
    isCapsLock := caps,
    targetInput := target,
    layouts := [(js "sample", sampleLayout), (js "hindi", Dist.LAYOUTS_hindi)],
    langSelector := [],
    keyboardDiv := [],
    controls := true,
    log := [] }

/-! ## The built-in layouts -/

/-- The entry `english` of `MultiLanguageKeyboard.LAYOUTS` (`dist/keyboard.js`, lines
286-290), with the string literals as they stand in the file. -/
def Dist.LAYOUTS_english : Layout where
  name := js "ЁЯЗ║ЁЯЗ╕ English"
  normal := [
    [js "\x60", js "1", js "2", js "3", js "4", js "5", js "6", js "7", js "8", js "9", js "0", js "-", js "=", js "Backspace"],
    [js "Tab", js "q", js "w", js "e", js "r", js "t", js "y", js "u", js "i", js "o", js "p", js "[", js "]", js "\x5c"],
    [js "Caps", js "a", js "s", js "d", js "f", js "g", js "h", js "j", js "k", js "l", js ";", js "\x27", js "Enter"],
    [js "Shift", js "z", js "x", js "c", js "v", js "b", js "n", js "m", js ",", js ".", js "/", js "Shift"],
    [js "Ctrl", js "Win", js "Alt", js "Space", js "Alt", js "Win", js "Menu", js "Ctrl"]
  ]
  shift := [
    [js "~", js "!", js "@", js "#", js "$", js "%", js "^", js "&", js "*", js "(", js ")", js "_", js "+", js "Backspace"],
    [js "Tab", js "Q", js "W", js "E", js "R", js "T", js "Y", js "U", js "I", js "O", js "P", js "\x7b", js "\x7d", js "|"],
    [js "Caps", js "A", js "S", js "D", js "F", js "G", js "H", js "J", js "K", js "L", js ":", js "\x22", js "Enter"],
    [js "Shift", js "Z", js "X", js "C", js "V", js "B", js "N", js "M", js "<", js ">", js "?", js "Shift"],
    [js "Ctrl", js "Win", js "Alt", js "Space", js "Alt", js "Win", js "Menu", js "Ctrl"]
  ]

/-- The entry `marathi` of `MultiLanguageKeyboard.LAYOUTS` (`dist/keyboard.js`, lines
296-300), with the string literals as they stand in the file. -/
def Dist.LAYOUTS_marathi : Layout where
  name := js "ЁЯЗоЁЯЗ│ рдорд░рд╛рдареА"
  normal := [
    [js "реК", js "рез", js "реи", js "рей", js "рек", js "рел", js "рем", js "рен", js "рео", js "реп", js "реж", js "-", js "реГ", js "Backspace"],
    [js "Tab", js "реМ", js "реИ", js "рд╛", js "реА", js "реВ", js "рдм", js "рд╣", js "рдЧ", js "рдж", js "рдЬ", js "рдб", js "рд╝", js "реЙ"],
    [js "Caps", js "реЛ", js "реЗ", js "реН", js "рд┐", js "реБ", js "рдк", js "рд░", js "рдХ", js "рдд", js "рдЪ", js "рдЯ", js "Enter"],
    [js "Shift", js "рд│", js "рдВ", js "рдо", js "рди", js "рд╡", js "рд▓", js "рд╕", js ",", js ".", js "рдп", js "Shift"],
    [js "Ctrl", js "Win", js "Alt", js "Space", js "Alt", js "Win", js "Menu", js "Ctrl"]
  ]
  shift := [
    [js "рдТ", js "рдН", js "реЕ", js "реНрд░", js "рд░реНрдж", js "рдЯреНрда", js "рдг", js "рдШ", js "рдЩ", js "рдЭ", js "рд╝", js "рдГ", js "рд╝", js "Backspace"],
    [js "Tab", js "рдФ", js "рдР", js "рдЖ", js "рдИ", js "рдК", js "рдн", js "рдГ", js "рдЧ", js "рдз", js "рдЭ", js "рдв", js "рдЮ", js "рдС"],
    [js "Caps", js "рдУ", js "рдП", js "рдЕ", js "рдЗ", js "рдЙ", js "рдл", js "рд▒", js "рдЦ", js "рде", js "рдЫ", js "рда", js "Enter"],
    [js "Shift", js "рд┤", js "рдБ", js "рдо", js "рди", js "рд╡", js "рд▓", js "рд╢", js "рд╖", js "ред", js "рдп", js "Shift"],
    [js "Ctrl", js "Win", js "Alt", js "Space", js "Alt", js "Win", js "Menu", js "Ctrl"]
  ]

/-- The entry `telugu` of `MultiLanguageKeyboard.LAYOUTS` (`dist/keyboard.js`, lines
301-305), with the string literals as they stand in the file. -/
def Dist.LAYOUTS_telugu : Layout where
  name := js "ЁЯЗоЁЯЗ│ р░др▒Жр░▓р▒Бр░Чр▒Б"
  normal := [
    [js "р▒К", js "р▒з", js "р▒и", js "р▒й", js "р▒к", js "р▒л", js "р▒м", js "р▒н", js "р▒о", js "р▒п", js "р▒ж", js "-", js "р▒Г", js "Backspace"],
    [js "Tab", js "р▒М", js "р▒И", js "р░╛", js "р▒А", js "р▒В", js "р░м", js "р░╣", js "р░Ч", js "р░ж", js "р░Ь", js "р░б", js "р░Ю", js "Backspace"],
    [js "Caps", js "р▒Л", js "р▒З", js "р▒Н", js "р░┐", js "р▒Б", js "р░к", js "р░░", js "р░Х", js "р░д", js "р░Ъ", js "р░Я", js "Enter"],
    [js "Shift", js "р▒Ж", js "р░В", js "р░о", js "р░и", js "р░╡", js "р░▓", js "р░╕", js ",", js ".", js "р░п", js "Shift"],
    [js "Ctrl", js "Win", js "Alt", js "Space", js "Alt", js "Win", js "Menu", js "Ctrl"]
  ]
  shift := [
    [js "р░Т", js "р░О", js "р░П", js "р░░р▒Н", js "р░Ьр▒Нр░Ю", js "р░др▒Нр░░", js "р░Хр▒Нр░╖", js "р░╢р▒Нр░░", js "(", js ")", js "р░Г", js "р░Л", js "Backspace"],
    [js "Tab", js "р░Ф", js "р░Р", js "р░Ж", js "р░И", js "р░К", js "р░н", js "р░Щ", js "р░Ш", js "р░з", js "р░Э", js "р░в", js "р░Ю", js "Backspace"],
    [js "Caps", js "р░У", js "р░П", js "р░Е", js "р░З", js "р░Й", js "р░л", js "р░▒", js "р░Ц", js "р░е", js "р░Ы", js "р░а", js "Enter"],
    [js "Shift", js "р░О", js "р░Б", js "р░о", js "р░и", js "р░╡", js "р░│", js "р░╢", js "р░╖", js "ред", js "р░п", js "Shift"],
    [js "Ctrl", js "Win", js "Alt", js "Space", js "Alt", js "Win", js "Menu", js "Ctrl"]
  ]

/-- The entry `tamil` of `MultiLanguageKeyboard.LAYOUTS` (`dist/keyboard.js`, lines
306-310), with the string literals as they stand in the file. -/
def Dist.LAYOUTS_tamil : Layout where
  name := js "ЁЯЗоЁЯЗ│ родрооро┐ро┤рпН"
  normal := [
    [js "рпК", js "рпз", js "рпи", js "рпй", js "рпк", js "рпл", js "рпм", js "рпн", js "рпо", js "рпп", js "рпж", js "-", js "рпН", js "Backspace"],
    [js "Tab", js "рпМ", js "рпИ", js "ро╛", js "рпА", js "рпВ", js "рок", js "ро╣", js "роХ", js "род", js "роЬ", js "роЯ", js "роЮ", js "Backspace"],
    [js "Caps", js "рпЛ", js "рпЗ", js "рпН", js "ро┐", js "рпБ", js "рок", js "ро░", js "роХ", js "род", js "роЪ", js "роЯ", js "Enter"],
    [js "Shift", js "рпЖ", js "роВ", js "роо", js "рои", js "ро╡", js "ро▓", js "роЪ", js ",", js ".", js "роп", js "Shift"],
    [js "Ctrl", js "Win", js "Alt", js "Space", js "Alt", js "Win", js "Menu", js "Ctrl"]
  ]
  shift := [
    [js "роТ", js "роО", js "роП", js "ро▒рпН", js "роХрпНро╖", js "ро╕рпН", js "ро╖рпН", js "ро╕рпНро░рпА", js "(", js ")", js ":", js "роГ", js "Backspace"],
    [js "Tab", js "роФ", js "роР", js "роЖ", js "роИ", js "роК", js "рок", js "ро╣", js "роХ", js "род", js "роЬ", js "роЯ", js "роЮ", js "Backspace"],
    [js "Caps", js "роУ", js "роП", js "роЕ", js "роЗ", js "роЙ", js "рок", js "ро▒", js "роХ", js "род", js "роЪ", js "роЯ", js "Enter"],
    [js "Shift", js "роО", js "роВ", js "роо", js "рой", js "ро╡", js "ро│", js "ро╕", js "ро╖", js "ред", js "роп", js "Shift"],
    [js "Ctrl", js "Win", js "Alt", js "Space", js "Alt", js "Win", js "Menu", js "Ctrl"]
  ]

/-- The entry `bengali` of `MultiLanguageKeyboard.LAYOUTS` (`dist/keyboard.js`, lines
311-315), with the string literals as they stand in the file. -/
def Dist.LAYOUTS_bengali : Layout where
  name := js "ЁЯЗзЁЯЗй ржмрж╛ржВрж▓рж╛"
  normal := [
    [js "рзО", js "рзз", js "рзи", js "рзй", js "рзк", js "рзл", js "рзм", js "рзн", js "рзо", js "рзп", js "рзж", js "-", js "рзГ", js "Backspace"],
    [js "Tab", js "рзМ", js "рзИ", js "рж╛", js "рзА", js "рзВ", js "ржм", js "рж╣", js "ржЧ", js "ржж", js "ржЬ", js "ржб", js "рж╝", js "рзЧ"],
    [js "Caps", js "рзЛ", js "рзЗ", js "рзН", js "рж┐", js "рзБ", js "ржк", js "рж░", js "ржХ", js "ржд", js "ржЪ", js "ржЯ", js "Enter"],
    [js "Shift", js "ржП", js "ржВ", js "ржо", js "ржи", js "ржм", js "рж▓", js "рж╕", js ",", js ".", js "ржп", js "Shift"],
    [js "Ctrl", js "Win", js "Alt", js "Space", js "Alt", js "Win", js "Menu", js "Ctrl"]
  ]
  shift := [
    [js "ржЕ", js "рза", js "рзб", js "рж░рзН", js "ржЬрзНржЮ", js "рждрзНрж░", js "ржХрзНрж╖", js "рж╢рзНрж░", js "(", js ")", js "ржГ", js "ржЛ", js "Backspace"],
    [js "Tab", js "ржФ", js "ржР", js "ржЖ", js "ржИ", js "ржК", js "ржн", js "ржЩ", js "ржШ", js "ржз", js "ржЭ", js "ржв", js "ржЮ", js "рзЧ"],
    [js "Caps", js "ржУ", js "ржП", js "ржЕ", js "ржЗ", js "ржЙ", js "ржл", js "ржбрж╝", js "ржЦ", js "рже", js "ржЫ", js "ржа", js "Enter"],
    [js "Shift", js "ржП", js "ржБ", js "ржо", js "ржг", js "ржм", js "рж▓", js "рж╢", js "рж╖", js "ред", js "ржп", js "Shift"],
    [js "Ctrl", js "Win", js "Alt", js "Space", js "Alt", js "Win", js "Menu", js "Ctrl"]
  ]

/-- The static property `MultiLanguageKeyboard.LAYOUTS` of `dist/keyboard.js` (lines
285-316): the six built-in layouts, in the order of the object literal. -/
def Dist.LAYOUTS : List (JSString × Layout) :=
  [(js "english", Dist.LAYOUTS_english), (js "hindi", Dist.LAYOUTS_hindi),
   (js "marathi", Dist.LAYOUTS_marathi), (js "telugu", Dist.LAYOUTS_telugu),
   (js "tamil", Dist.LAYOUTS_tamil), (js "bengali", Dist.LAYOUTS_bengali)]

/-- The layout that `layouts/english.js` (lines 2-18) passes to `registerLayout`. -/
def Src.englishLayout : Layout where
  name := js "🇺🇸 English"
  normal := [
    [js "\x60", js "1", js "2", js "3", js "4", js "5", js "6", js "7", js "8", js "9", js "0", js "-", js "=", js "Backspace"],
    [js "Tab", js "q", js "w", js "e", js "r", js "t", js "y", js "u", js "i", js "o", js "p", js "[", js "]", js "\x5c"],
    [js "Caps", js "a", js "s", js "d", js "f", js "g", js "h", js "j", js "k", js "l", js ";", js "\x27", js "Enter"],
    [js "Shift", js "z", js "x", js "c", js "v", js "b", js "n", js "m", js ",", js ".", js "/", js "Shift"],
    [js "Ctrl", js "Win", js "Alt", js "Space", js "Alt", js "Win", js "Menu", js "Ctrl"]
  ]
  shift := [
    [js "~", js "!", js "@", js "#", js "$", js "%", js "^", js "&", js "*", js "(", js ")", js "_", js "+", js "Backspace"],
    [js "Tab", js "Q", js "W", js "E", js "R", js "T", js "Y", js "U", js "I", js "O", js "P", js "\x7b", js "\x7d", js "|"],
    [js "Caps", js "A", js "S", js "D", js "F", js "G", js "H", js "J", js "K", js "L", js ":", js "\x22", js "Enter"],
    [js "Shift", js "Z", js "X", js "C", js "V", js "B", js "N", js "M", js "<", js ">", js "?", js "Shift"],
    [js "Ctrl", js "Win", js "Alt", js "Space", js "Alt", js "Win", js "Menu", js "Ctrl"]
  ]

/-- The shape invariant of a layout: `normal` and `shift` have the same number of rows
and corresponding rows have the same number of keys. -/
def Layout.sameShape (l : Layout) : Prop :=
  l.normal.map List.length = l.shift.map List.length

/-! ## Registration, construction and `clear` -/

/-- The assignment `obj[name] = layout` on a plain object: the value of an own property is
replaced in place, a new property is added behind the others. This is the behaviour for
the names language ids are made of; it is not modelled that `Object.keys` lists
integer-like names first, nor that the name `__proto__` sets the prototype and adds no
own property. -/
def assignLayout (name : JSString) (layout : Layout) :
    List (JSString × Layout) → List (JSString × Layout)
  | [] => [(name, layout)]
  | entry :: rest =>
    if entry.1 = name then (name, layout) :: rest
    else entry :: assignLayout name layout rest

/-- The edit of `clear`, the same in both files: `if (this.targetInput) this.targetInput.value = ''`. -/
def clearEdit (s : Session) : Session :=
  match s.targetInput with
  | some input => { s with targetInput := some (input.setValue (js "")) }
  | none => s

/-- One call of the keyboard from its host. -/
inductive Action where
  /-- A click on a key button: `handleKey(key)`. -/
  | handleKey (key : JSString)
  /-- A click on a language button, or a call from the host: `switchLanguage(lang)`. -/
  | switchLanguage (lang : JSString)
deriving DecidableEq, Repr

namespace Src

/-- The static method `registerLayout` (lines 39-44), as a function of the value of
`MultiLanguageKeyboard.prototype.layouts` (`none` while it is `undefined`). -/
def registerLayout (name : JSString) (layout : Layout)
    (prototypeLayouts : Option (List (JSString × Layout))) :
    Option (List (JSString × Layout)) :=
  match prototypeLayouts with
  | none => some (assignLayout name layout [])
  | some layouts => some (assignLayout name layout layouts)

/-- The constructor (lines 9-36) followed by `init` (lines 46-54), for a container that is
found. The statement `this.layouts = {}` gives the new object an own, empty `layouts`; no
statement of the class reads `MultiLanguageKeyboard.prototype.layouts`, the object that
`registerLayout` fills and that is passed here as `prototypeLayouts`. -/
def create (_prototypeLayouts : Option (List (JSString × Layout))) (options : Options)
    (targetInput : Option EditTarget) : Outcome :=
  let s : Session :=
    { options := options,
      currentLanguage := options.language,
      isShift := false,
      isCapsLock := false,
      targetInput := targetInput,
      layouts := [],
      langSelector := [],
      keyboardDiv := [],
      controls := false,
      log := [] }
  (render s).andThen (fun s =>
    let s := if s.options.onLanguageChange then s.record (.onLanguageChange s.currentLanguage) else s
    { state := s, threw := none })

/-- The method `clear` (lines 342-347) of a constructed keyboard. `this.emit('clear')`
dispatches `mlk:clear` on the container, and the listener that `attachEvents` (line 366)
put there answers it with `this.clear()`: the method calls itself again, one level deeper
on the call stack. `stack` is the number of further levels the stack can take; at the
level after the last one the call raises a `RangeError`, which `dispatchEvent` reports. -/
def clear : Nat → Session → Session
  | 0, s => (emit (js "clear") none (clearEdit s)).record (.uncaughtError .rangeError)
  | stack + 1, s => clear stack (emit (js "clear") none (clearEdit s))

/-- One call from the host; an exception goes to the caller and the keyboard stays in the
state the call left. -/
def step (a : Action) (s : Session) : Session :=
  match a with
  | .handleKey key => (handleKey key s).state
  | .switchLanguage lang => (switchLanguage lang s).state

/-- A finite sequence of calls from the host. -/
def run (actions : List Action) (s : Session) : Session :=
  actions.foldl (fun s a => step a s) s

end Src

namespace Dist

/-- The constructor (lines 10-30) followed by `init` (lines 32-36), for a container that
is found; `LAYOUTS` is the value of the static property `MultiLanguageKeyboard.LAYOUTS`. -/
def create (LAYOUTS : List (JSString × Layout)) (options : Options)
    (targetInput : Option EditTarget) : Outcome :=
  let s : Session :=
    { options := options,
      currentLanguage := options.language,
      isShift := false,
      isCapsLock := false,
      targetInput := targetInput,
      layouts := LAYOUTS,
      langSelector := [],
      keyboardDiv := [],
      controls := false,
      log := [] }
  render s

/-- The method `clear` (line 264). -/
def clear (s : Session) : Session :=
  clearEdit s

/-- One call from the host; an exception goes to the caller and the keyboard stays in the
state the call left. -/
def step (a : Action) (s : Session) : Session :=
  match a with
  | .handleKey key => (handleKey key s).state
  | .switchLanguage lang => (switchLanguage lang s).state

/-- A finite sequence of calls from the host. -/
def run (actions : List Action) (s : Session) : Session :=
  actions.foldl (fun s a => step a s) s

end Dist

/-- Whether, along the calls `actions` made from `s` to `src/keyboard.js`, no `Shift` key
is pressed while caps lock is on. -/
def Src.noShiftUnderCaps : List Action → Session → Bool
  | [], _ => true
  | a :: rest, s =>
    (a != Action.handleKey (js "Shift") || !s.isCapsLock) &&
      Src.noShiftUnderCaps rest (Src.step a s)

/-- Whether, along the calls `actions` made from `s` to `dist/keyboard.js`, no `Shift`
key is pressed while caps lock is on. -/
def Dist.noShiftUnderCaps : List Action → Session → Bool
  | [], _ => true
  | a :: rest, s =>
    (a != Action.handleKey (js "Shift") || !s.isCapsLock) &&
      Dist.noShiftUnderCaps rest (Dist.step a s)

/-- The default options of both constructors: `language: 'english'`, `showControls: true`
and no callback. -/
def defaultOptions : Options :=
  { language := js "english", showControls := true, onKeyPress := false,
    onLanguageChange := false }

/-- Whether an effect is a call of the `onKeyPress` callback. -/
def Effect.isKeyPress : Effect → Bool
  | .onKeyPress _ _ => true
  | _ => false

/-- The session with other options: the same object with `this.options` replaced. -/
def Session.withOptions (s : Session) (o : Options) : Session :=
  { s with options := o }

/-! ## The key literals -/

theorem key_Backspace : js "Backspace" = [66, 97, 99, 107, 115, 112, 97, 99, 101] := by decide

theorem key_Space : js "Space" = [83, 112, 97, 99, 101] := by decide

theorem key_Enter : js "Enter" = [69, 110, 116, 101, 114] := by decide

theorem key_Tab : js "Tab" = [84, 97, 98] := by decide

theorem key_Shift : js "Shift" = [83, 104, 105, 102, 116] := by decide

theorem key_Caps : js "Caps" = [67, 97, 112, 115] := by decide

theorem key_Ctrl : js "Ctrl" = [67, 116, 114, 108] := by decide

theorem key_Win : js "Win" = [87, 105, 110] := by decide

theorem key_Alt : js "Alt" = [65, 108, 116] := by decide

theorem key_Menu : js "Menu" = [77, 101, 110, 117] := by decide

/-- A key that is no control token differs from each label of the `switch`. -/
theorem not_controlToken {key : JSString} (h : key ∉ controlTokens) :
    key ≠ js "Backspace" ∧ key ≠ js "Space" ∧ key ≠ js "Enter" ∧ key ≠ js "Tab" ∧
    key ≠ js "Shift" ∧ key ≠ js "Caps" ∧ key ≠ js "Ctrl" ∧ key ≠ js "Win" ∧
    key ≠ js "Alt" ∧ key ≠ js "Menu" := by
  simp only [controlTokens, List.mem_cons, List.mem_singleton, not_or] at h
  tauto

/-! ## Which fields each step leaves alone -/

theorem record_fields (s : Session) (e : Effect) :
    (s.record e).isShift = s.isShift ∧ (s.record e).isCapsLock = s.isCapsLock ∧
    (s.record e).currentLanguage = s.currentLanguage ∧
    (s.record e).targetInput = s.targetInput ∧ (s.record e).layouts = s.layouts ∧
    (s.record e).options = s.options ∧ (s.record e).keyboardDiv = s.keyboardDiv := by
  simp [Session.record]

theorem notifyKeyPress_fields (key : JSString) (s : Session) :
    (notifyKeyPress key s).isShift = s.isShift ∧
    (notifyKeyPress key s).isCapsLock = s.isCapsLock ∧
    (notifyKeyPress key s).currentLanguage = s.currentLanguage ∧
    (notifyKeyPress key s).targetInput = s.targetInput ∧
    (notifyKeyPress key s).layouts = s.layouts ∧
    (notifyKeyPress key s).options = s.options ∧
    (notifyKeyPress key s).keyboardDiv = s.keyboardDiv := by
  unfold notifyKeyPress
  split <;> simp [Session.record]

theorem refocus_fields (s : Session) :
    (refocus s).isShift = s.isShift ∧ (refocus s).isCapsLock = s.isCapsLock ∧
    (refocus s).currentLanguage = s.currentLanguage ∧
    (refocus s).targetInput = s.targetInput ∧ (refocus s).layouts = s.layouts ∧
    (refocus s).options = s.options ∧ (refocus s).keyboardDiv = s.keyboardDiv := by
  unfold refocus
  split <;> simp [Session.record]

theorem renderKeys_fields (s : Session) :
    (renderKeys s).state.isShift = s.isShift ∧
    (renderKeys s).state.isCapsLock = s.isCapsLock ∧
    (renderKeys s).state.currentLanguage = s.currentLanguage ∧
    (renderKeys s).state.targetInput = s.targetInput ∧
    (renderKeys s).state.layouts = s.layouts ∧
    (renderKeys s).state.options = s.options ∧ (renderKeys s).state.log = s.log := by
  unfold renderKeys
  split <;> simp

theorem insertEdit_fields (text : JSString) (s : Session) :
    (insertEdit text s).isShift = s.isShift ∧ (insertEdit text s).isCapsLock = s.isCapsLock ∧
    (insertEdit text s).currentLanguage = s.currentLanguage ∧
    (insertEdit text s).layouts = s.layouts ∧ (insertEdit text s).options = s.options ∧
    (insertEdit text s).keyboardDiv = s.keyboardDiv := by
  unfold insertEdit
  split <;> simp

theorem backspaceEdit_fields (s : Session) :
    (backspaceEdit s).isShift = s.isShift ∧ (backspaceEdit s).isCapsLock = s.isCapsLock ∧
    (backspaceEdit s).currentLanguage = s.currentLanguage ∧
    (backspaceEdit s).layouts = s.layouts ∧ (backspaceEdit s).options = s.options ∧
    (backspaceEdit s).keyboardDiv = s.keyboardDiv := by
  unfold backspaceEdit
  split
  · dsimp only
    split_ifs <;> simp
  · simp

/-- The statements after a call that may raise change the log only. -/
theorem andThen_refocus_fields (o : Outcome) :
    let r := o.andThen (fun s => { state := refocus s, threw := none })
    r.state.isShift = o.state.isShift ∧ r.state.isCapsLock = o.state.isCapsLock ∧
    r.state.currentLanguage = o.state.currentLanguage ∧
    r.state.targetInput = o.state.targetInput ∧ r.state.layouts = o.state.layouts ∧
    r.state.keyboardDiv = o.state.keyboardDiv ∧ r.threw = o.threw := by
  rcases o with ⟨st, _ | e⟩ <;> simp [Outcome.andThen, refocus_fields]

/-! ## The edits of the bound field -/

/-- Assigning the value and then collapsing the selection at a position inside the new
text leaves exactly that text and that position. -/
theorem setValue_setSelectionRange (input : EditTarget) (v : JSString) (p : Nat)
    (hp : p ≤ v.length) :
    (input.setValue v).setSelectionRange p p =
      { value := v, selectionStart := p, selectionEnd := p } := by
  unfold EditTarget.setValue EditTarget.setSelectionRange
  split_ifs with h
  · subst h
    simp [hp]
  · simp [hp]

theorem insertEdit_target (s : Session) (input : EditTarget) (text : JSString)
    (hbound : s.targetInput = some input)
    (hsel : input.selectionStart ≤ input.selectionEnd)
    (hlen : input.selectionEnd ≤ input.value.length) :
    (insertEdit text s).targetInput =
      some { value := input.value.take input.selectionStart ++ text ++
                      input.value.drop input.selectionEnd,
             selectionStart := input.selectionStart + text.length,
             selectionEnd := input.selectionStart + text.length } := by
  unfold insertEdit
  rw [hbound]
  dsimp only
  rw [setValue_setSelectionRange]
  · rfl
  · simp only [slice, sliceFrom, List.drop_zero, List.length_append, List.length_take,
      List.length_drop]
    omega

theorem backspaceEdit_selection (s : Session) (input : EditTarget)
    (hbound : s.targetInput = some input)
    (hsel : input.selectionStart < input.selectionEnd)
    (hlen : input.selectionEnd ≤ input.value.length) :
    (backspaceEdit s).targetInput =
      some { value := input.value.take input.selectionStart ++
                      input.value.drop input.selectionEnd,
             selectionStart := input.selectionStart,
             selectionEnd := input.selectionStart } := by
  unfold backspaceEdit
  rw [hbound]
  have h1 : ¬ (input.selectionStart = input.selectionEnd ∧ input.selectionStart > 0) := by
    omega
  have h2 : input.selectionStart ≠ input.selectionEnd := by omega
  dsimp only
  rw [if_neg h1, if_pos h2, setValue_setSelectionRange]
  · rfl
  · simp only [slice, sliceFrom, List.drop_zero, List.length_append, List.length_take,
      List.length_drop]
    omega

theorem backspaceEdit_collapsed (s : Session) (input : EditTarget)
    (hbound : s.targetInput = some input)
    (hsel : input.selectionStart = input.selectionEnd)
    (hpos : 0 < input.selectionStart)
    (hlen : input.selectionEnd ≤ input.value.length) :
    (backspaceEdit s).targetInput =
      some { value := input.value.take (input.selectionStart - 1) ++
                      input.value.drop input.selectionEnd,
             selectionStart := input.selectionStart - 1,
             selectionEnd := input.selectionStart - 1 } := by
  unfold backspaceEdit
  rw [hbound]
  have h1 : input.selectionStart = input.selectionEnd ∧ input.selectionStart > 0 :=
    ⟨hsel, hpos⟩
  dsimp only
  rw [if_pos h1, setValue_setSelectionRange]
  · rfl
  · simp only [slice, sliceFrom, List.drop_zero, List.length_append, List.length_take,
      List.length_drop]
    omega

theorem backspaceEdit_at_start (s : Session) (input : EditTarget)
    (hbound : s.targetInput = some input)
    (hstart : input.selectionStart = 0) (hstop : input.selectionEnd = 0) :
    backspaceEdit s = s := by
  unfold backspaceEdit
  rw [hbound]
  simp [hstart, hstop]

/-! ## Dispatch of a key -/

theorem src_handleKey_Backspace (s : Session) :
    Src.handleKey (js "Backspace") s =
      { state := refocus (Src.emit (js "backspace") none
          (backspaceEdit (notifyKeyPress (js "Backspace") s))),
        threw := none } := by
  simp [Src.handleKey]

theorem dist_handleKey_Backspace (s : Session) :
    Dist.handleKey (js "Backspace") s =
      { state := refocus (backspaceEdit (notifyKeyPress (js "Backspace") s)),
        threw := none } := by
  simp [Dist.handleKey]

theorem src_handleKey_Shift (s : Session) :
    Src.handleKey (js "Shift") s =
      renderKeys { notifyKeyPress (js "Shift") s with isShift := !s.isShift } := by
  simp [Src.handleKey, key_Backspace, key_Space, key_Enter, key_Tab, key_Shift,
    notifyKeyPress_fields]

theorem dist_handleKey_Shift (s : Session) :
    Dist.handleKey (js "Shift") s =
      renderKeys { notifyKeyPress (js "Shift") s with isShift := !s.isShift } := by
  simp [Dist.handleKey, key_Backspace, key_Space, key_Enter, key_Tab, key_Shift,
    notifyKeyPress_fields]

theorem src_handleKey_Caps (s : Session) :
    Src.handleKey (js "Caps") s =
      renderKeys { notifyKeyPress (js "Caps") s with
        isCapsLock := !s.isCapsLock, isShift := !s.isCapsLock } := by
  simp [Src.handleKey, key_Backspace, key_Space, key_Enter, key_Tab, key_Shift, key_Caps,
    notifyKeyPress_fields]

theorem dist_handleKey_Caps (s : Session) :
    Dist.handleKey (js "Caps") s =
      renderKeys { notifyKeyPress (js "Caps") s with
        isCapsLock := !s.isCapsLock, isShift := !s.isCapsLock } := by
  simp [Dist.handleKey, key_Backspace, key_Space, key_Enter, key_Tab, key_Shift, key_Caps,
    notifyKeyPress_fields]

/-- The three whitespace keys and the text each of them inserts. -/
theorem src_handleKey_whitespace (s : Session) :
    Src.handleKey (js "Space") s =
      { state := refocus (Src.insertText (js " ") (notifyKeyPress (js "Space") s)),
        threw := none } ∧
    Src.handleKey (js "Enter") s =
      { state := refocus (Src.insertText (js "\n") (notifyKeyPress (js "Enter") s)),
        threw := none } ∧
    Src.handleKey (js "Tab") s =
      { state := refocus (Src.insertText (js "\t") (notifyKeyPress (js "Tab") s)),
        threw := none } := by
  simp [Src.handleKey, key_Backspace, key_Space, key_Enter, key_Tab]

theorem dist_handleKey_whitespace (s : Session) :
    Dist.handleKey (js "Space") s =
      { state := refocus (Dist.insertText (js " ") (notifyKeyPress (js "Space") s)),
        threw := none } ∧
    Dist.handleKey (js "Enter") s =
      { state := refocus (Dist.insertText (js "\n") (notifyKeyPress (js "Enter") s)),
        threw := none } ∧
    Dist.handleKey (js "Tab") s =
      { state := refocus (Dist.insertText (js "\t") (notifyKeyPress (js "Tab") s)),
        threw := none } := by
  simp [Dist.handleKey, key_Backspace, key_Space, key_Enter, key_Tab]

/-- The `default` clause: what a key that is no control token does. -/
theorem src_handleKey_default (key : JSString) (s : Session) (h : key ∉ controlTokens) :
    Src.handleKey key s =
      Outcome.andThen
        (if (Src.insertText key (notifyKeyPress key s)).isShift = true ∧
            (Src.insertText key (notifyKeyPress key s)).isCapsLock = false
         then renderKeys { Src.insertText key (notifyKeyPress key s) with isShift := false }
         else { state := Src.insertText key (notifyKeyPress key s), threw := none })
        (fun s => { state := refocus s, threw := none }) := by
  obtain ⟨h1, h2, h3, h4, h5, h6, h7, h8, h9, h10⟩ := not_controlToken h
  simp [Src.handleKey, h1, h2, h3, h4, h5, h6, h7, h8, h9, h10]

theorem dist_handleKey_default (key : JSString) (s : Session) (h : key ∉ controlTokens) :
    Dist.handleKey key s =
      Outcome.andThen
        (if (Dist.insertText key (notifyKeyPress key s)).isShift = true ∧
            (Dist.insertText key (notifyKeyPress key s)).isCapsLock = false
         then renderKeys { Dist.insertText key (notifyKeyPress key s) with isShift := false }
         else { state := Dist.insertText key (notifyKeyPress key s), threw := none })
        (fun s => { state := refocus s, threw := none }) := by
  obtain ⟨h1, h2, h3, h4, h5, h6, h7, h8, h9, h10⟩ := not_controlToken h
  simp [Dist.handleKey, h1, h2, h3, h4, h5, h6, h7, h8, h9, h10]

theorem src_insertText_fields (text : JSString) (s : Session) :
    (Src.insertText text s).isShift = s.isShift ∧
    (Src.insertText text s).isCapsLock = s.isCapsLock ∧
    (Src.insertText text s).currentLanguage = s.currentLanguage ∧
    (Src.insertText text s).targetInput = (insertEdit text s).targetInput ∧
    (Src.insertText text s).layouts = s.layouts ∧
    (Src.insertText text s).keyboardDiv = s.keyboardDiv := by
  simp [Src.insertText, Src.emit, record_fields, insertEdit_fields]

theorem dist_insertText_fields (text : JSString) (s : Session) :
    (Dist.insertText text s).isShift = s.isShift ∧
    (Dist.insertText text s).isCapsLock = s.isCapsLock ∧
    (Dist.insertText text s).currentLanguage = s.currentLanguage ∧
    (Dist.insertText text s).targetInput = (insertEdit text s).targetInput ∧
    (Dist.insertText text s).layouts = s.layouts ∧
    (Dist.insertText text s).keyboardDiv = s.keyboardDiv := by
  simp [Dist.insertText, insertEdit_fields]

/-- The edit made by `insertEdit` depends on the bound field only. -/
theorem insertEdit_congr (text : JSString) (s₁ s₂ : Session)
    (h : s₁.targetInput = s₂.targetInput) :
    (insertEdit text s₁).targetInput = (insertEdit text s₂).targetInput := by
  unfold insertEdit
  rw [h]
  split <;> first | rfl | exact h

/-- The edit made by `backspaceEdit` depends on the bound field only. -/
theorem backspaceEdit_congr (s₁ s₂ : Session) (h : s₁.targetInput = s₂.targetInput) :
    (backspaceEdit s₁).targetInput = (backspaceEdit s₂).targetInput := by
  unfold backspaceEdit
  rw [h]
  split
  · dsimp only
    split_ifs <;> first | rfl | exact h
  · exact h

/-- The state after the `default` clause, field by field. -/
theorem src_handleKey_default_state (key : JSString) (s : Session)
    (h : key ∉ controlTokens) :
    (Src.handleKey key s).state.targetInput = (insertEdit key s).targetInput ∧
    (Src.handleKey key s).state.isShift = (s.isShift && s.isCapsLock) ∧
    (Src.handleKey key s).state.isCapsLock = s.isCapsLock ∧
    (Src.handleKey key s).state.currentLanguage = s.currentLanguage ∧
    (Src.handleKey key s).state.layouts = s.layouts := by
  rw [src_handleKey_default key s h]
  have hr := andThen_refocus_fields
  simp only at hr
  have hc := insertEdit_congr key (notifyKeyPress key s) s (notifyKeyPress_fields key s).2.2.2.1
  simp only [hr, src_insertText_fields, notifyKeyPress_fields]
  cases hs : s.isShift <;> cases hk : s.isCapsLock <;>
    simp [renderKeys_fields, src_insertText_fields, notifyKeyPress_fields, hc, hs, hk]

theorem dist_handleKey_default_state (key : JSString) (s : Session)
    (h : key ∉ controlTokens) :
    (Dist.handleKey key s).state.targetInput = (insertEdit key s).targetInput ∧
    (Dist.handleKey key s).state.isShift = (s.isShift && s.isCapsLock) ∧
    (Dist.handleKey key s).state.isCapsLock = s.isCapsLock ∧
    (Dist.handleKey key s).state.currentLanguage = s.currentLanguage ∧
    (Dist.handleKey key s).state.layouts = s.layouts := by
  rw [dist_handleKey_default key s h]
  have hr := andThen_refocus_fields
  simp only at hr
  have hc := insertEdit_congr key (notifyKeyPress key s) s (notifyKeyPress_fields key s).2.2.2.1
  simp only [hr, dist_insertText_fields, notifyKeyPress_fields]
  cases hs : s.isShift <;> cases hk : s.isCapsLock <;>
    simp [renderKeys_fields, dist_insertText_fields, notifyKeyPress_fields, hc, hs, hk]

/-- The state after `Backspace`, field by field. -/
theorem src_handleKey_Backspace_state (s : Session) :
    (Src.handleKey (js "Backspace") s).state.targetInput = (backspaceEdit s).targetInput ∧
    (Src.handleKey (js "Backspace") s).state.isShift = s.isShift ∧
    (Src.handleKey (js "Backspace") s).state.isCapsLock = s.isCapsLock ∧
    (Src.handleKey (js "Backspace") s).state.currentLanguage = s.currentLanguage ∧
    (Src.handleKey (js "Backspace") s).threw = none := by
  rw [src_handleKey_Backspace]
  simp only [refocus_fields, Src.emit, record_fields, backspaceEdit_fields,
    notifyKeyPress_fields, and_true]
  exact backspaceEdit_congr _ _ (notifyKeyPress_fields _ s).2.2.2.1

theorem dist_handleKey_Backspace_state (s : Session) :
    (Dist.handleKey (js "Backspace") s).state.targetInput = (backspaceEdit s).targetInput ∧
    (Dist.handleKey (js "Backspace") s).state.isShift = s.isShift ∧
    (Dist.handleKey (js "Backspace") s).state.isCapsLock = s.isCapsLock ∧
    (Dist.handleKey (js "Backspace") s).state.currentLanguage = s.currentLanguage ∧
    (Dist.handleKey (js "Backspace") s).threw = none := by
  rw [dist_handleKey_Backspace]
  simp only [refocus_fields, backspaceEdit_fields, notifyKeyPress_fields, and_true]
  exact backspaceEdit_congr _ _ (notifyKeyPress_fields _ s).2.2.2.1

/-! ## The claims -/

/-- C1: for every bound field with `0 ≤ selectionStart ≤ selectionEnd ≤ value.length` and
every text `t`, `insertText(t)` replaces the selected range of the value by `t`, so that
the value becomes `value[0..selectionStart) + t + value[selectionEnd..)`, and leaves the
selection collapsed at `selectionStart + t.length`, in both files. -/
theorem C1_insertText_replaces_selection (s : Session) (input : EditTarget) (t : JSString)
    (hbound : s.targetInput = some input)
    (hsel : input.selectionStart ≤ input.selectionEnd)
    (hlen : input.selectionEnd ≤ input.value.length) :
    (Src.insertText t s).targetInput =
      some { value := input.value.take input.selectionStart ++ t ++
                      input.value.drop input.selectionEnd,
             selectionStart := input.selectionStart + t.length,
             selectionEnd := input.selectionStart + t.length } ∧
    (Dist.insertText t s).targetInput =
      some { value := input.value.take input.selectionStart ++ t ++
                      input.value.drop input.selectionEnd,
             selectionStart := input.selectionStart + t.length,
             selectionEnd := input.selectionStart + t.length } := by
  rw [(src_insertText_fields t s).2.2.2.1, (dist_insertText_fields t s).2.2.2.1]
  exact ⟨insertEdit_target s input t hbound hsel hlen,
    insertEdit_target s input t hbound hsel hlen⟩

/-- C1 at the field `ab` with the cursor at 1 and the text `xy`: the value becomes `axyb`
and the cursor stands at `1 + 2`. -/
theorem C1_insertText_replaces_selection_witness :
    (1 ≤ 1 ∧ 1 ≤ (js "ab").length) ∧
    (Src.insertText (js "xy")
        (sampleSession false false (some ⟨js "ab", 1, 1⟩))).targetInput =
      some ⟨js "axyb", 3, 3⟩ ∧
    (Dist.insertText (js "xy")
        (sampleSession false false (some ⟨js "ab", 1, 1⟩))).targetInput =
      some ⟨js "axyb", 3, 3⟩ :=
  ⟨by decide,
   C1_insertText_replaces_selection (sampleSession false false (some ⟨js "ab", 1, 1⟩))
     ⟨js "ab", 1, 1⟩ (js "xy") rfl (by decide) (by decide)⟩

/-- C2: for every bound field with a non-empty selection
(`selectionStart < selectionEnd ≤ value.length`), `handleKey('Backspace')` deletes exactly
the selected range, collapses the cursor to `selectionStart` and leaves `isShift` and
`isCapsLock` as they were, in both files. -/
theorem C2_backspace_deletes_selection (s : Session) (input : EditTarget)
    (hbound : s.targetInput = some input)
    (hsel : input.selectionStart < input.selectionEnd)
    (hlen : input.selectionEnd ≤ input.value.length) :
    ((Src.handleKey (js "Backspace") s).state.targetInput =
        some { value := input.value.take input.selectionStart ++
                        input.value.drop input.selectionEnd,
               selectionStart := input.selectionStart,
               selectionEnd := input.selectionStart } ∧
      (Src.handleKey (js "Backspace") s).state.isShift = s.isShift ∧
      (Src.handleKey (js "Backspace") s).state.isCapsLock = s.isCapsLock) ∧
    ((Dist.handleKey (js "Backspace") s).state.targetInput =
        some { value := input.value.take input.selectionStart ++
                        input.value.drop input.selectionEnd,
               selectionStart := input.selectionStart,
               selectionEnd := input.selectionStart } ∧
      (Dist.handleKey (js "Backspace") s).state.isShift = s.isShift ∧
      (Dist.handleKey (js "Backspace") s).state.isCapsLock = s.isCapsLock) := by
  have hs := src_handleKey_Backspace_state s
  have hd := dist_handleKey_Backspace_state s
  have he := backspaceEdit_selection s input hbound hsel hlen
  exact ⟨⟨hs.1.trans he, hs.2.1, hs.2.2.1⟩, ⟨hd.1.trans he, hd.2.1, hd.2.2.1⟩⟩

/-- C2 at the field `abc` with the selection `[1, 2)`: the value becomes `ac` and the
cursor stands at 1. -/
theorem C2_backspace_deletes_selection_witness :
    (1 < 2 ∧ 2 ≤ (js "abc").length) ∧
    (Src.handleKey (js "Backspace")
        (sampleSession true false (some ⟨js "abc", 1, 2⟩))).state.targetInput =
      some ⟨js "ac", 1, 1⟩ ∧
    (Dist.handleKey (js "Backspace")
        (sampleSession true false (some ⟨js "abc", 1, 2⟩))).state.targetInput =
      some ⟨js "ac", 1, 1⟩ :=
  ⟨by decide,
   (C2_backspace_deletes_selection (sampleSession true false (some ⟨js "abc", 1, 2⟩))
     ⟨js "abc", 1, 2⟩ rfl (by decide) (by decide)).1.1,
   (C2_backspace_deletes_selection (sampleSession true false (some ⟨js "abc", 1, 2⟩))
     ⟨js "abc", 1, 2⟩ rfl (by decide) (by decide)).2.1⟩

/-- C4: for every bound field with the cursor collapsed at position 0, whatever its
value, `handleKey('Backspace')` leaves the value, `selectionStart`, `selectionEnd`,
`isShift` and `isCapsLock` unchanged, in both files. -/
theorem C4_backspace_at_start_is_noop (s : Session) (input : EditTarget)
    (hbound : s.targetInput = some input)
    (hstart : input.selectionStart = 0) (hstop : input.selectionEnd = 0) :
    ((Src.handleKey (js "Backspace") s).state.targetInput = some input ∧
      (Src.handleKey (js "Backspace") s).state.isShift = s.isShift ∧
      (Src.handleKey (js "Backspace") s).state.isCapsLock = s.isCapsLock) ∧
    ((Dist.handleKey (js "Backspace") s).state.targetInput = some input ∧
      (Dist.handleKey (js "Backspace") s).state.isShift = s.isShift ∧
      (Dist.handleKey (js "Backspace") s).state.isCapsLock = s.isCapsLock) := by
  have hs := src_handleKey_Backspace_state s
  have hd := dist_handleKey_Backspace_state s
  have he : (backspaceEdit s).targetInput = some input := by
    rw [backspaceEdit_at_start s input hbound hstart hstop, hbound]
  exact ⟨⟨hs.1.trans he, hs.2.1, hs.2.2.1⟩, ⟨hd.1.trans he, hd.2.1, hd.2.2.1⟩⟩

/-- C4 at the field `abc` with the cursor at 0: the field stays as it is. -/
theorem C4_backspace_at_start_is_noop_witness :
    (Src.handleKey (js "Backspace")
        (sampleSession false false (some ⟨js "abc", 0, 0⟩))).state.targetInput =
      some ⟨js "abc", 0, 0⟩ ∧
    (Dist.handleKey (js "Backspace")
        (sampleSession false false (some ⟨js "abc", 0, 0⟩))).state.targetInput =
      some ⟨js "abc", 0, 0⟩ :=
  ⟨(C4_backspace_at_start_is_noop (sampleSession false false (some ⟨js "abc", 0, 0⟩))
     ⟨js "abc", 0, 0⟩ rfl rfl rfl).1.1,
   (C4_backspace_at_start_is_noop (sampleSession false false (some ⟨js "abc", 0, 0⟩))
     ⟨js "abc", 0, 0⟩ rfl rfl rfl).2.1⟩

/-- C5: in every session, `handleKey('Caps')` negates `isCapsLock` and sets `isShift` to
the new `isCapsLock`, whatever `isShift` was, and changes neither the bound field nor the
current language, in both files. -/
theorem C5_caps_toggles_and_syncs_shift (s : Session) :
    ((Src.handleKey (js "Caps") s).state.isCapsLock = (!s.isCapsLock) ∧
      (Src.handleKey (js "Caps") s).state.isShift =
        (Src.handleKey (js "Caps") s).state.isCapsLock ∧
      (Src.handleKey (js "Caps") s).state.targetInput = s.targetInput ∧
      (Src.handleKey (js "Caps") s).state.currentLanguage = s.currentLanguage) ∧
    ((Dist.handleKey (js "Caps") s).state.isCapsLock = (!s.isCapsLock) ∧
      (Dist.handleKey (js "Caps") s).state.isShift =
        (Dist.handleKey (js "Caps") s).state.isCapsLock ∧
      (Dist.handleKey (js "Caps") s).state.targetInput = s.targetInput ∧
      (Dist.handleKey (js "Caps") s).state.currentLanguage = s.currentLanguage) := by
  rw [src_handleKey_Caps, dist_handleKey_Caps]
  simp [renderKeys_fields, notifyKeyPress_fields]

/-- C6: in every session, `handleKey('Shift')` negates `isShift` and leaves `isCapsLock`,
the current language and the bound field unchanged; pressing `Shift` twice in a row gives
back the original `isShift`, with `isCapsLock`, the language and the field unchanged, in
both files. -/
theorem C6_shift_toggles_and_is_involutive (s : Session) :
    ((Src.handleKey (js "Shift") s).state.isShift = (!s.isShift) ∧
      (Src.handleKey (js "Shift") s).state.isCapsLock = s.isCapsLock ∧
      (Src.handleKey (js "Shift") s).state.currentLanguage = s.currentLanguage ∧
      (Src.handleKey (js "Shift") s).state.targetInput = s.targetInput) ∧
    ((Src.handleKey (js "Shift") (Src.handleKey (js "Shift") s).state).state.isShift =
        s.isShift ∧
      (Src.handleKey (js "Shift") (Src.handleKey (js "Shift") s).state).state.isCapsLock =
        s.isCapsLock ∧
      (Src.handleKey (js "Shift")
        (Src.handleKey (js "Shift") s).state).state.currentLanguage = s.currentLanguage ∧
      (Src.handleKey (js "Shift") (Src.handleKey (js "Shift") s).state).state.targetInput =
        s.targetInput) ∧
    ((Dist.handleKey (js "Shift") s).state.isShift = (!s.isShift) ∧
      (Dist.handleKey (js "Shift") s).state.isCapsLock = s.isCapsLock ∧
      (Dist.handleKey (js "Shift") s).state.currentLanguage = s.currentLanguage ∧
      (Dist.handleKey (js "Shift") s).state.targetInput = s.targetInput) ∧
    ((Dist.handleKey (js "Shift") (Dist.handleKey (js "Shift") s).state).state.isShift =
        s.isShift ∧
      (Dist.handleKey (js "Shift") (Dist.handleKey (js "Shift") s).state).state.isCapsLock =
        s.isCapsLock ∧
      (Dist.handleKey (js "Shift")
        (Dist.handleKey (js "Shift") s).state).state.currentLanguage = s.currentLanguage ∧
      (Dist.handleKey (js "Shift")
        (Dist.handleKey (js "Shift") s).state).state.targetInput = s.targetInput) := by
  simp only [src_handleKey_Shift, dist_handleKey_Shift]
  simp [renderKeys_fields, notifyKeyPress_fields]

/-- The grid drawn by `renderKeys` when the current language has a layout. -/
theorem renderKeys_grid (s : Session) (l : Layout)
    (h : getLayout s.layouts s.currentLanguage = .layout l) :
    (renderKeys s).threw = none ∧
    gridKeys (renderKeys s).state.keyboardDiv = (if s.isShift then l.shift else l.normal) := by
  unfold renderKeys
  rw [h]
  simp [gridKeys, keyButton, Function.comp_def]

/-- The `default` clause in a session whose current language has a layout: no exception,
and after a released shift the unshifted grid is drawn. -/
theorem src_handleKey_default_render (key : JSString) (s : Session) (l : Layout)
    (h : key ∉ controlTokens)
    (hl : getLayout s.layouts s.currentLanguage = .layout l) :
    (Src.handleKey key s).threw = none ∧
    (s.isShift = true → s.isCapsLock = false →
      gridKeys (Src.handleKey key s).state.keyboardDiv = l.normal) := by
  rw [src_handleKey_default key s h]
  have hf : (Src.insertText key (notifyKeyPress key s)).layouts = s.layouts ∧
      (Src.insertText key (notifyKeyPress key s)).currentLanguage = s.currentLanguage ∧
      (Src.insertText key (notifyKeyPress key s)).isShift = s.isShift ∧
      (Src.insertText key (notifyKeyPress key s)).isCapsLock = s.isCapsLock := by
    simp [src_insertText_fields, notifyKeyPress_fields]
  generalize Src.insertText key (notifyKeyPress key s) = s₁ at hf ⊢
  obtain ⟨hf1, hf2, hf3, hf4⟩ := hf
  have hg := renderKeys_grid { s₁ with isShift := false } l
    (by rw [← hl, ← hf1, ← hf2])
  have hr := andThen_refocus_fields
    (if s₁.isShift = true ∧ s₁.isCapsLock = false then renderKeys { s₁ with isShift := false }
     else { state := s₁, threw := none })
  simp only at hr
  rw [hr.2.2.2.2.2.1, hr.2.2.2.2.2.2]
  split_ifs with hc
  · exact ⟨hg.1, fun _ _ => by simpa using hg.2⟩
  · exact ⟨rfl, fun h1 h2 => absurd ⟨hf3.trans h1, hf4.trans h2⟩ hc⟩

theorem dist_handleKey_default_render (key : JSString) (s : Session) (l : Layout)
    (h : key ∉ controlTokens)
    (hl : getLayout s.layouts s.currentLanguage = .layout l) :
    (Dist.handleKey key s).threw = none ∧
    (s.isShift = true → s.isCapsLock = false →
      gridKeys (Dist.handleKey key s).state.keyboardDiv = l.normal) := by
  rw [dist_handleKey_default key s h]
  have hf : (Dist.insertText key (notifyKeyPress key s)).layouts = s.layouts ∧
      (Dist.insertText key (notifyKeyPress key s)).currentLanguage = s.currentLanguage ∧
      (Dist.insertText key (notifyKeyPress key s)).isShift = s.isShift ∧
      (Dist.insertText key (notifyKeyPress key s)).isCapsLock = s.isCapsLock := by
    simp [dist_insertText_fields, notifyKeyPress_fields]
  generalize Dist.insertText key (notifyKeyPress key s) = s₁ at hf ⊢
  obtain ⟨hf1, hf2, hf3, hf4⟩ := hf
  have hg := renderKeys_grid { s₁ with isShift := false } l
    (by rw [← hl, ← hf1, ← hf2])
  have hr := andThen_refocus_fields
    (if s₁.isShift = true ∧ s₁.isCapsLock = false then renderKeys { s₁ with isShift := false }
     else { state := s₁, threw := none })
  simp only at hr
  rw [hr.2.2.2.2.2.1, hr.2.2.2.2.2.2]
  split_ifs with hc
  · exact ⟨hg.1, fun _ _ => by simpa using hg.2⟩
  · exact ⟨rfl, fun h1 h2 => absurd ⟨hf3.trans h1, hf4.trans h2⟩ hc⟩

/-- C7: in every session and for every printable key (a key that is no control token),
after `handleKey(key)` the modifier state is `(isShift AND isCapsLock, isCapsLock)`: shift
is released exactly when it was active without caps lock, and then, the current language
having a layout, the unshifted grid is drawn for the next key; with caps lock on, shift
stays as it was. -/
theorem C7_printable_key_releases_shift (key : JSString) (s : Session)
    (hkey : key ∉ controlTokens) :
    ((Src.handleKey key s).state.isShift = (s.isShift && s.isCapsLock) ∧
      (Src.handleKey key s).state.isCapsLock = s.isCapsLock ∧
      (s.isCapsLock = true → (Src.handleKey key s).state.isShift = s.isShift) ∧
      (∀ l, getLayout s.layouts s.currentLanguage = .layout l →
        s.isShift = true → s.isCapsLock = false →
        gridKeys (Src.handleKey key s).state.keyboardDiv = l.normal)) ∧
    ((Dist.handleKey key s).state.isShift = (s.isShift && s.isCapsLock) ∧
      (Dist.handleKey key s).state.isCapsLock = s.isCapsLock ∧
      (s.isCapsLock = true → (Dist.handleKey key s).state.isShift = s.isShift) ∧
      (∀ l, getLayout s.layouts s.currentLanguage = .layout l →
        s.isShift = true → s.isCapsLock = false →
        gridKeys (Dist.handleKey key s).state.keyboardDiv = l.normal)) := by
  have hs := src_handleKey_default_state key s hkey
  have hd := dist_handleKey_default_state key s hkey
  refine ⟨⟨hs.2.1, hs.2.2.1, ?_, ?_⟩, ⟨hd.2.1, hd.2.2.1, ?_, ?_⟩⟩
  · intro hc
    rw [hs.2.1, hc, Bool.and_true]
  · intro l hl
    exact (src_handleKey_default_render key s l hkey hl).2
  · intro hc
    rw [hd.2.1, hc, Bool.and_true]
  · intro l hl
    exact (dist_handleKey_default_render key s l hkey hl).2

/-- C7 at the key `a` with shift on and caps lock off: shift is released and the
unshifted grid of the sample layout is drawn. -/
theorem C7_printable_key_releases_shift_witness :
    js "a" ∉ controlTokens ∧
    (Src.handleKey (js "a") (sampleSession true false (some ⟨js "ab", 1, 1⟩))).state.isShift =
      false ∧
    gridKeys (Src.handleKey (js "a")
      (sampleSession true false (some ⟨js "ab", 1, 1⟩))).state.keyboardDiv =
      sampleLayout.normal :=
  ⟨by decide,
   (C7_printable_key_releases_shift (js "a")
     (sampleSession true false (some ⟨js "ab", 1, 1⟩)) (by decide)).1.1,
   (C7_printable_key_releases_shift (js "a")
     (sampleSession true false (some ⟨js "ab", 1, 1⟩)) (by decide)).1.2.2.2
       sampleLayout (by decide) rfl rfl⟩

/-- C8, as stated, fails: with shift on and caps lock off, `Space`, `Enter` and `Tab`
leave shift on, in both files. -/
theorem C8_whitespace_releases_shift_counterexample :
    (sampleSession true false (some ⟨js "ab", 1, 1⟩)).isShift = true ∧
    (sampleSession true false (some ⟨js "ab", 1, 1⟩)).isCapsLock = false ∧
    (Src.handleKey (js "Space")
      (sampleSession true false (some ⟨js "ab", 1, 1⟩))).state.isShift ≠ false ∧
    (Src.handleKey (js "Enter")
      (sampleSession true false (some ⟨js "ab", 1, 1⟩))).state.isShift ≠ false ∧
    (Src.handleKey (js "Tab")
      (sampleSession true false (some ⟨js "ab", 1, 1⟩))).state.isShift ≠ false ∧
    (Dist.handleKey (js "Space")
      (sampleSession true false (some ⟨js "ab", 1, 1⟩))).state.isShift ≠ false ∧
    (Dist.handleKey (js "Enter")
      (sampleSession true false (some ⟨js "ab", 1, 1⟩))).state.isShift ≠ false ∧
    (Dist.handleKey (js "Tab")
      (sampleSession true false (some ⟨js "ab", 1, 1⟩))).state.isShift ≠ false := by
  decide

/-- C8, amended: auto-release does not apply to the whitespace keys. In every session
each of `Space`, `Enter` and `Tab` leaves `isShift` and `isCapsLock` as they were, in both
files; so with shift on and caps lock off shift is still on afterwards. -/
theorem C8_whitespace_keys_keep_modifiers (s : Session) :
    ((Src.handleKey (js "Space") s).state.isShift = s.isShift ∧
      (Src.handleKey (js "Space") s).state.isCapsLock = s.isCapsLock ∧
      (Src.handleKey (js "Enter") s).state.isShift = s.isShift ∧
      (Src.handleKey (js "Enter") s).state.isCapsLock = s.isCapsLock ∧
      (Src.handleKey (js "Tab") s).state.isShift = s.isShift ∧
      (Src.handleKey (js "Tab") s).state.isCapsLock = s.isCapsLock) ∧
    ((Dist.handleKey (js "Space") s).state.isShift = s.isShift ∧
      (Dist.handleKey (js "Space") s).state.isCapsLock = s.isCapsLock ∧
      (Dist.handleKey (js "Enter") s).state.isShift = s.isShift ∧
      (Dist.handleKey (js "Enter") s).state.isCapsLock = s.isCapsLock ∧
      (Dist.handleKey (js "Tab") s).state.isShift = s.isShift ∧
      (Dist.handleKey (js "Tab") s).state.isCapsLock = s.isCapsLock) := by
  obtain ⟨h1, h2, h3⟩ := src_handleKey_whitespace s
  obtain ⟨h4, h5, h6⟩ := dist_handleKey_whitespace s
  rw [h1, h2, h3, h4, h5, h6]
  simp [refocus_fields, src_insertText_fields, dist_insertText_fields, notifyKeyPress_fields]

/-- Deleting the unit before the cursor that stands right behind an inserted, non-empty
text removes the last unit of that text. -/
theorem take_drop_after_insert (v g : JSString) (p : Nat) (hp : p ≤ v.length)
    (hg : g ≠ []) :
    (v.take p ++ g ++ v.drop p).take (p + g.length - 1) ++
      (v.take p ++ g ++ v.drop p).drop (p + g.length) =
    v.take p ++ g.dropLast ++ v.drop p := by
  have hlen : 0 < g.length := List.length_pos.mpr hg
  have h1 : (v.take p).length = p := by simp [hp]
  have e1 : p + g.length - 1 = (v.take p ++ g.dropLast).length := by
    simp [h1]
    omega
  have e2 : p + g.length = (v.take p ++ g).length := by simp [h1]
  have e3 : v.take p ++ g ++ v.drop p =
      (v.take p ++ g.dropLast) ++ ([g.getLast hg] ++ v.drop p) := by
    conv_lhs => rw [← List.dropLast_append_getLast hg]
    simp
  have t1 : (v.take p ++ g ++ v.drop p).take (p + g.length - 1) = v.take p ++ g.dropLast := by
    rw [e3, e1, List.take_left]
  have t2 : (v.take p ++ g ++ v.drop p).drop (p + g.length) = v.drop p := by
    rw [e2, List.drop_left]
  rw [t1, t2]

/-- C3, as stated, fails: the fourth key of the first row of the shifted `hindi` grid is
written with six code units in `dist/keyboard.js` (two in the Devanagari conjunct it
stands for). Pressed in a field holding `a` with the cursor at the end, and followed by
one `Backspace`, it leaves five of its units behind: the field is not restored. -/
theorem C3_press_then_backspace_counterexample :
    (∃ row ∈ Dist.LAYOUTS_hindi.shift, js "реНрд░" ∈ row) ∧
    js "реНрд░" ∉ controlTokens ∧
    (Dist.handleKey (js "Backspace")
      (Dist.handleKey (js "реНрд░")
        (sampleSession false false (some ⟨js "a", 1, 1⟩))).state).state.targetInput =
      some ⟨js "aреНрд", 6, 6⟩ ∧
    (Dist.handleKey (js "Backspace")
      (Dist.handleKey (js "реНрд░")
        (sampleSession false false (some ⟨js "a", 1, 1⟩))).state).state.targetInput ≠
      (sampleSession false false (some ⟨js "a", 1, 1⟩)).targetInput ∧
    (Src.handleKey (js "Backspace")
      (Src.handleKey (js "реНрд░")
        (sampleSession false false (some ⟨js "a", 1, 1⟩))).state).state.targetInput ≠
      (sampleSession false false (some ⟨js "a", 1, 1⟩)).targetInput := by
  decide

/-- C3, amended: `Backspace` with a collapsed cursor deletes exactly one text unit (one
UTF-16 code unit). For every bound field with a collapsed cursor inside the value and
every printable, non-empty key `g`, pressing `g` and then `Backspace` leaves
`value[0..cursor) + g without its last unit + value[cursor..)` with the cursor at
`cursor + g.length - 1`; the original value and cursor are restored when `g` consists of
one unit, in both files. -/
theorem C3_backspace_removes_one_unit (s : Session) (input : EditTarget) (g : JSString)
    (hbound : s.targetInput = some input)
    (hcol : input.selectionStart = input.selectionEnd)
    (hlen : input.selectionEnd ≤ input.value.length)
    (hkey : g ∉ controlTokens) (hg : g ≠ []) :
    ((Src.handleKey (js "Backspace") (Src.handleKey g s).state).state.targetInput =
        some { value := input.value.take input.selectionStart ++ g.dropLast ++
                        input.value.drop input.selectionStart,
               selectionStart := input.selectionStart + g.length - 1,
               selectionEnd := input.selectionStart + g.length - 1 } ∧
      (g.length = 1 →
        (Src.handleKey (js "Backspace") (Src.handleKey g s).state).state.targetInput =
          some input)) ∧
    ((Dist.handleKey (js "Backspace") (Dist.handleKey g s).state).state.targetInput =
        some { value := input.value.take input.selectionStart ++ g.dropLast ++
                        input.value.drop input.selectionStart,
               selectionStart := input.selectionStart + g.length - 1,
               selectionEnd := input.selectionStart + g.length - 1 } ∧
      (g.length = 1 →
        (Dist.handleKey (js "Backspace") (Dist.handleKey g s).state).state.targetInput =
          some input)) := by
  have hpos : 0 < g.length := List.length_pos.mpr hg
  have hins := insertEdit_target s input g hbound (le_of_eq hcol) hlen
  rw [← hcol] at hins
  -- the edit `Backspace` makes in any state that holds the field left by the key press
  have hback : ∀ s₁ : Session, s₁.targetInput = (insertEdit g s).targetInput →
      (backspaceEdit s₁).targetInput =
        some { value := input.value.take input.selectionStart ++ g.dropLast ++
                        input.value.drop input.selectionStart,
               selectionStart := input.selectionStart + g.length - 1,
               selectionEnd := input.selectionStart + g.length - 1 } := by
    intro s₁ h₁
    rw [backspaceEdit_collapsed s₁ _ (h₁.trans hins) rfl (by simp; omega)
      (by simp [List.length_take]; omega)]
    simp only [Option.some.injEq, EditTarget.mk.injEq, and_self, and_true]
    exact take_drop_after_insert input.value g input.selectionStart (by omega) hg
  -- one unit: nothing of the key is left
  have hone : g.length = 1 →
      (some { value := input.value.take input.selectionStart ++ g.dropLast ++
                        input.value.drop input.selectionStart,
              selectionStart := input.selectionStart + g.length - 1,
              selectionEnd := input.selectionStart + g.length - 1 } : Option EditTarget) =
        some input := by
    intro h1
    have hd : g.dropLast = [] := by
      apply List.eq_nil_of_length_eq_zero
      simp [h1]
    rcases input with ⟨v, a, b⟩
    simp only at hcol
    subst hcol
    simp [hd, h1]
  have hs := (src_handleKey_Backspace_state (Src.handleKey g s).state).1.trans
    (hback _ (src_handleKey_default_state g s hkey).1)
  have hd := (dist_handleKey_Backspace_state (Dist.handleKey g s).state).1.trans
    (hback _ (dist_handleKey_default_state g s hkey).1)
  exact ⟨⟨hs, fun h1 => hs.trans (hone h1)⟩, ⟨hd, fun h1 => hd.trans (hone h1)⟩⟩

/-- C3, amended, at the one-unit key `a` and at the two-unit key `ab`, in the field `xy`
with the cursor at 1: the first round trip restores the field, the second leaves `a`. -/
theorem C3_backspace_removes_one_unit_witness :
    (js "a" ∉ controlTokens ∧ js "ab" ∉ controlTokens) ∧
    (Src.handleKey (js "Backspace")
      (Src.handleKey (js "a")
        (sampleSession false false (some ⟨js "xy", 1, 1⟩))).state).state.targetInput =
      some ⟨js "xy", 1, 1⟩ ∧
    (Src.handleKey (js "Backspace")
      (Src.handleKey (js "ab")
        (sampleSession false false (some ⟨js "xy", 1, 1⟩))).state).state.targetInput =
      some ⟨js "xay", 2, 2⟩ :=
  ⟨by decide,
   (C3_backspace_removes_one_unit (sampleSession false false (some ⟨js "xy", 1, 1⟩))
     ⟨js "xy", 1, 1⟩ (js "a") rfl rfl (by decide) (by decide) (by decide)).1.2 rfl,
   (C3_backspace_removes_one_unit (sampleSession false false (some ⟨js "xy", 1, 1⟩))
     ⟨js "xy", 1, 1⟩ (js "ab") rfl rfl (by decide) (by decide) (by decide)).1.1⟩

/-- C9, as stated, fails: `Delete` is no control token and no key of a registered grid,
and `handleKey('Delete')` is not a no-op. In a field holding `ab` with the cursor at 1 it
types the word `Delete`, and it releases an active shift, in both files. -/
theorem C9_unrecognised_key_counterexample :
    js "Delete" ∉ controlTokens ∧
    (∀ entry ∈ (sampleSession true false (some ⟨js "ab", 1, 1⟩)).layouts,
      (∀ row ∈ entry.2.normal, js "Delete" ∉ row) ∧
      (∀ row ∈ entry.2.shift, js "Delete" ∉ row)) ∧
    (Src.handleKey (js "Delete")
      (sampleSession true false (some ⟨js "ab", 1, 1⟩))).state.targetInput =
      some ⟨js "aDeleteb", 7, 7⟩ ∧
    (Dist.handleKey (js "Delete")
      (sampleSession true false (some ⟨js "ab", 1, 1⟩))).state.targetInput =
      some ⟨js "aDeleteb", 7, 7⟩ ∧
    (Src.handleKey (js "Delete")
      (sampleSession true false (some ⟨js "ab", 1, 1⟩))).state.isShift ≠
      (sampleSession true false (some ⟨js "ab", 1, 1⟩)).isShift ∧
    (Dist.handleKey (js "Delete")
      (sampleSession true false (some ⟨js "ab", 1, 1⟩))).state.isShift ≠
      (sampleSession true false (some ⟨js "ab", 1, 1⟩)).isShift := by
  decide

/-- C9, amended: a key symbol that is none of the ten control tokens, whether or not it
is a key of a registered grid, is handled as a printable key. In a session whose current
language has a layout `handleKey` raises no exception; it replaces the selection of the
bound field by the text of the key symbol, with the cursor behind it, and the modifier
state becomes `(isShift AND isCapsLock, isCapsLock)`, in both files. -/
theorem C9_unrecognised_key_is_typed (key : JSString) (s : Session) (l : Layout)
    (input : EditTarget)
    (hkey : key ∉ controlTokens)
    (hlayout : getLayout s.layouts s.currentLanguage = .layout l)
    (hbound : s.targetInput = some input)
    (hsel : input.selectionStart ≤ input.selectionEnd)
    (hlen : input.selectionEnd ≤ input.value.length) :
    ((Src.handleKey key s).threw = none ∧
      (Src.handleKey key s).state.targetInput =
        some { value := input.value.take input.selectionStart ++ key ++
                        input.value.drop input.selectionEnd,
               selectionStart := input.selectionStart + key.length,
               selectionEnd := input.selectionStart + key.length } ∧
      (Src.handleKey key s).state.isShift = (s.isShift && s.isCapsLock) ∧
      (Src.handleKey key s).state.isCapsLock = s.isCapsLock) ∧
    ((Dist.handleKey key s).threw = none ∧
      (Dist.handleKey key s).state.targetInput =
        some { value := input.value.take input.selectionStart ++ key ++
                        input.value.drop input.selectionEnd,
               selectionStart := input.selectionStart + key.length,
               selectionEnd := input.selectionStart + key.length } ∧
      (Dist.handleKey key s).state.isShift = (s.isShift && s.isCapsLock) ∧
      (Dist.handleKey key s).state.isCapsLock = s.isCapsLock) := by
  have hs := src_handleKey_default_state key s hkey
  have hd := dist_handleKey_default_state key s hkey
  have he := insertEdit_target s input key hbound hsel hlen
  exact ⟨⟨(src_handleKey_default_render key s l hkey hlayout).1, hs.1.trans he, hs.2.1,
      hs.2.2.1⟩,
    ⟨(dist_handleKey_default_render key s l hkey hlayout).1, hd.1.trans he, hd.2.1,
      hd.2.2.1⟩⟩

/-- C9, amended, at the key `Escape` in the field `ab` with the cursor at 1. -/
theorem C9_unrecognised_key_is_typed_witness :
    js "Escape" ∉ controlTokens ∧
    (Src.handleKey (js "Escape") (sampleSession false false (some ⟨js "ab", 1, 1⟩))).threw =
      none ∧
    (Src.handleKey (js "Escape")
      (sampleSession false false (some ⟨js "ab", 1, 1⟩))).state.targetInput =
      some ⟨js "aEscapeb", 7, 7⟩ :=
  ⟨by decide,
   (C9_unrecognised_key_is_typed (js "Escape")
     (sampleSession false false (some ⟨js "ab", 1, 1⟩)) sampleLayout ⟨js "ab", 1, 1⟩
     (by decide) (by decide) rfl (by decide) (by decide)).1.1,
   (C9_unrecognised_key_is_typed (js "Escape")
     (sampleSession false false (some ⟨js "ab", 1, 1⟩)) sampleLayout ⟨js "ab", 1, 1⟩
     (by decide) (by decide) rfl (by decide) (by decide)).1.2.1⟩

/-- A registered language id reads as its layout. -/
theorem getLayout_registered (layouts : List (JSString × Layout)) (lang : JSString)
    (l : Layout) (h : layouts.lookup lang = some l) :
    getLayout layouts lang = .layout l := by
  unfold getLayout
  rw [h]

/-- What `render` leaves alone. -/
theorem render_fields (s : Session) :
    (render s).state.isShift = s.isShift ∧ (render s).state.isCapsLock = s.isCapsLock ∧
    (render s).state.currentLanguage = s.currentLanguage ∧
    (render s).state.targetInput = s.targetInput ∧ (render s).state.layouts = s.layouts ∧
    (render s).state.options = s.options ∧ (render s).state.log = s.log := by
  unfold render
  exact renderKeys_fields _

/-- The grid drawn by `render` when the current language has a layout. -/
theorem render_grid (s : Session) (l : Layout)
    (h : getLayout s.layouts s.currentLanguage = .layout l) :
    (render s).threw = none ∧
    gridKeys (render s).state.keyboardDiv = (if s.isShift then l.shift else l.normal) := by
  unfold render
  exact renderKeys_grid _ l h

/-- C10: for every language id registered with a layout and in every session,
`switchLanguage(id)` returns with `currentLanguage = id`, leaves `isShift`, `isCapsLock`
and the bound field unchanged, and the grid it draws is the `shift` grid of the layout of
`id` when `isShift` was true and its `normal` grid otherwise, in both files. -/
theorem C10_switchLanguage_keeps_modifiers (lang : JSString) (s : Session) (l : Layout)
    (hreg : s.layouts.lookup lang = some l) :
    ((Src.switchLanguage lang s).threw = none ∧
      (Src.switchLanguage lang s).state.currentLanguage = lang ∧
      (Src.switchLanguage lang s).state.isShift = s.isShift ∧
      (Src.switchLanguage lang s).state.isCapsLock = s.isCapsLock ∧
      (Src.switchLanguage lang s).state.targetInput = s.targetInput ∧
      gridKeys (Src.switchLanguage lang s).state.keyboardDiv =
        (if s.isShift then l.shift else l.normal)) ∧
    ((Dist.switchLanguage lang s).threw = none ∧
      (Dist.switchLanguage lang s).state.currentLanguage = lang ∧
      (Dist.switchLanguage lang s).state.isShift = s.isShift ∧
      (Dist.switchLanguage lang s).state.isCapsLock = s.isCapsLock ∧
      (Dist.switchLanguage lang s).state.targetInput = s.targetInput ∧
      gridKeys (Dist.switchLanguage lang s).state.keyboardDiv =
        (if s.isShift then l.shift else l.normal)) := by
  have hl := getLayout_registered s.layouts lang l hreg
  have hg := render_grid { s with currentLanguage := lang } l hl
  have hf := render_fields { s with currentLanguage := lang }
  unfold Src.switchLanguage Dist.switchLanguage
  rw [hl]
  obtain ⟨hg1, hg2⟩ := hg
  obtain ⟨hf1, hf2, hf3, hf4, _, _, _⟩ := hf
  generalize render { s with currentLanguage := lang } = o at hg1 hg2 hf1 hf2 hf3 hf4 ⊢
  rcases o with ⟨st, thr⟩
  simp only at hg1 hg2 hf1 hf2 hf3 hf4
  subst hg1
  simp only [Outcome.andThen, Src.emit]
  cases st.options.onLanguageChange <;>
    simp [Session.record, hg2, hf1, hf2, hf3, hf4]

/-- C10 at the switch to `hindi` with shift on: the shifted `hindi` grid is drawn. -/
theorem C10_switchLanguage_keeps_modifiers_witness :
    (sampleSession true false none).layouts.lookup (js "hindi") = some Dist.LAYOUTS_hindi ∧
    (Dist.switchLanguage (js "hindi") (sampleSession true false none)).state.isShift = true ∧
    gridKeys (Dist.switchLanguage (js "hindi")
      (sampleSession true false none)).state.keyboardDiv = Dist.LAYOUTS_hindi.shift :=
  ⟨by decide,
   (C10_switchLanguage_keeps_modifiers (js "hindi") (sampleSession true false none)
     Dist.LAYOUTS_hindi (by decide)).2.2.2.1,
   (C10_switchLanguage_keeps_modifiers (js "hindi") (sampleSession true false none)
     Dist.LAYOUTS_hindi (by decide)).2.2.2.2.2.2⟩

/-! ## Language switch to an unknown id -/

/-- C11, as stated, fails. The id `klingon` is not registered, and `switchLanguage` does
not fail on it: it returns normally in both files (after `console.error` in
`src/keyboard.js`, silently in `dist/keyboard.js`). The id `constructor` is not
registered either, and `switchLanguage` does not leave the session as it was: the current
language becomes `constructor`. -/
theorem C11_switch_to_unknown_counterexample :
    (sampleSession true false none).layouts.lookup (js "klingon") = none ∧
    (Src.switchLanguage (js "klingon") (sampleSession true false none)).threw = none ∧
    (Dist.switchLanguage (js "klingon") (sampleSession true false none)).threw = none ∧
    (sampleSession true false none).layouts.lookup (js "constructor") = none ∧
    (Src.switchLanguage (js "constructor")
      (sampleSession true false none)).state.currentLanguage ≠
      (sampleSession true false none).currentLanguage ∧
    (Dist.switchLanguage (js "constructor")
      (sampleSession true false none)).state.currentLanguage ≠
      (sampleSession true false none).currentLanguage := by
  decide

/-- C11, amended: for every id under which `this.layouts[id]` reads `undefined` (no
registered layout and no name inherited from `Object.prototype`), `switchLanguage(id)`
raises nothing and returns at once. `src/keyboard.js` reports
`Layout 'id' not registered` with `console.error` and changes nothing else;
`dist/keyboard.js` changes nothing at all. The current language, `isShift`, `isCapsLock`,
the bound field and the drawn grid are as before. -/
theorem C11_switch_to_unknown_is_rejected (lang : JSString) (s : Session)
    (hundef : getLayout s.layouts lang = .undefined) :
    (Src.switchLanguage lang s =
        { state := s.record (.consoleError
            (js "Layout " ++ [39] ++ lang ++ [39] ++ js " not registered")),
          threw := none } ∧
      (Src.switchLanguage lang s).state.currentLanguage = s.currentLanguage ∧
      (Src.switchLanguage lang s).state.isShift = s.isShift ∧
      (Src.switchLanguage lang s).state.isCapsLock = s.isCapsLock ∧
      (Src.switchLanguage lang s).state.targetInput = s.targetInput ∧
      (Src.switchLanguage lang s).state.keyboardDiv = s.keyboardDiv) ∧
    Dist.switchLanguage lang s = { state := s, threw := none } := by
  unfold Src.switchLanguage Dist.switchLanguage
  rw [hundef]
  simp [Session.record]

/-- C11, amended, at the id `klingon`. -/
theorem C11_switch_to_unknown_is_rejected_witness :
    getLayout (sampleSession true false none).layouts (js "klingon") = .undefined ∧
    (Src.switchLanguage (js "klingon")
      (sampleSession true false none)).state.currentLanguage = js "sample" ∧
    Dist.switchLanguage (js "klingon") (sampleSession true false none) =
      { state := sampleSession true false none, threw := none } :=
  ⟨by decide,
   (C11_switch_to_unknown_is_rejected (js "klingon") (sampleSession true false none)
     (by decide)).1.2.1,
   (C11_switch_to_unknown_is_rejected (js "klingon") (sampleSession true false none)
     (by decide)).2⟩

/-! ## Registration and construction in `src/keyboard.js` -/

/-- After `obj[name] = layout` the property `name` holds `layout`. -/
theorem assignLayout_lookup (name : JSString) (layout : Layout)
    (layouts : List (JSString × Layout)) :
    (assignLayout name layout layouts).lookup name = some layout := by
  induction layouts with
  | nil => simp [assignLayout, List.lookup]
  | cons entry rest ih =>
    unfold assignLayout
    split_ifs with h
    · simp [List.lookup]
    · have hne : (name == entry.1) = false := by
        simp only [beq_eq_false_iff_ne, ne_eq]
        exact fun e => h e.symm
      rw [List.lookup, hne]
      exact ih

/-- C12 (code defect): `registerLayout(id, table)` does store `table` under `id` in
`MultiLanguageKeyboard.prototype.layouts`, replacing an earlier table; but a keyboard
created afterwards has its own, empty `layouts`, under which no id reads a layout, and
its constructor ends in the `TypeError` of `renderKeys`. -/
theorem C12_registered_layout_is_shadowed (id : JSString) (table : Layout)
    (prototypeLayouts : Option (List (JSString × Layout))) (options : Options)
    (targetInput : Option EditTarget) :
    (∃ registry, Src.registerLayout id table prototypeLayouts = some registry ∧
      registry.lookup id = some table) ∧
    (Src.create (Src.registerLayout id table prototypeLayouts) options
      targetInput).state.layouts = [] ∧
    getLayout (Src.create (Src.registerLayout id table prototypeLayouts) options
      targetInput).state.layouts id ≠ .layout table ∧
    (Src.create (Src.registerLayout id table prototypeLayouts) options
      targetInput).threw = some .typeError := by
  refine ⟨?_, ?_⟩
  · cases prototypeLayouts with
    | none => exact ⟨_, rfl, assignLayout_lookup id table []⟩
    | some layouts => exact ⟨_, rfl, assignLayout_lookup id table layouts⟩
  · unfold Src.create render renderKeys
    simp only [getLayout, List.lookup]
    split_ifs <;> simp [Outcome.andThen, getLayout]

/-- C12 at the bundled call `registerLayout('english', ...)` followed by
`new MultiLanguageKeyboard(container)` with the default options: the registry holds the
english layout, the lookup of `english` in the new keyboard reads `undefined`, and the
constructor raises a `TypeError`. -/
theorem C12_registered_layout_is_shadowed_witness :
    getLayout (Src.create (Src.registerLayout (js "english") Src.englishLayout none)
      defaultOptions none).state.layouts (js "english") = .undefined ∧
    getLayout (Src.create (Src.registerLayout (js "english") Src.englishLayout none)
      defaultOptions none).state.layouts (js "english") ≠ .layout Src.englishLayout ∧
    (Src.create (Src.registerLayout (js "english") Src.englishLayout none)
      defaultOptions none).threw = some .typeError :=
  ⟨by decide,
   (C12_registered_layout_is_shadowed (js "english") Src.englishLayout none
     defaultOptions none).2.2.1,
   (C12_registered_layout_is_shadowed (js "english") Src.englishLayout none
     defaultOptions none).2.2.2⟩

/-! ## The shape of the built-in layouts -/

/-- C13 (defect in the layout data): the two grids have the same shape in `english`,
`hindi` and `marathi` of `MultiLanguageKeyboard.LAYOUTS` and in the layout of
`layouts/english.js`, but not in `telugu`, `tamil` and `bengali`, where the first row has
14 keys in `normal` and 13 in `shift`. -/
theorem C13_builtin_layout_shapes :
    (Dist.LAYOUTS_english.sameShape ∧ Dist.LAYOUTS_hindi.sameShape ∧
      Dist.LAYOUTS_marathi.sameShape ∧ Src.englishLayout.sameShape) ∧
    (¬ Dist.LAYOUTS_telugu.sameShape ∧ ¬ Dist.LAYOUTS_tamil.sameShape ∧
      ¬ Dist.LAYOUTS_bengali.sameShape) ∧
    (Dist.LAYOUTS_telugu.normal.map List.length = [14, 14, 13, 12, 8] ∧
      Dist.LAYOUTS_telugu.shift.map List.length = [13, 14, 13, 12, 8]) ∧
    (Dist.LAYOUTS_tamil.normal.map List.length = [14, 14, 13, 12, 8] ∧
      Dist.LAYOUTS_tamil.shift.map List.length = [13, 14, 13, 12, 8]) ∧
    (Dist.LAYOUTS_bengali.normal.map List.length = [14, 14, 13, 12, 8] ∧
      Dist.LAYOUTS_bengali.shift.map List.length = [13, 14, 13, 12, 8]) := by
  unfold Layout.sameShape
  decide

/-! ## `clear` -/

theorem clearEdit_fields (s : Session) :
    (clearEdit s).isShift = s.isShift ∧ (clearEdit s).isCapsLock = s.isCapsLock ∧
    (clearEdit s).currentLanguage = s.currentLanguage ∧
    (clearEdit s).layouts = s.layouts ∧ (clearEdit s).options = s.options ∧
    (clearEdit s).keyboardDiv = s.keyboardDiv ∧ (clearEdit s).log = s.log := by
  unfold clearEdit
  split <;> simp

/-- Assigning the empty string to a well-formed field leaves it empty with the cursor
at 0. -/
theorem clearEdit_target (s : Session) (input : EditTarget)
    (hbound : s.targetInput = some input) (hwf : input.WellFormed) :
    (clearEdit s).targetInput = some ⟨js "", 0, 0⟩ := by
  unfold clearEdit
  rw [hbound]
  obtain ⟨h1, h2⟩ := hwf
  rcases input with ⟨v, a, b⟩
  simp only [EditTarget.setValue] at *
  have hjs : js "" = [] := rfl
  rw [hjs]
  split_ifs with hv
  · subst hv
    simp only [List.length_nil, Nat.le_zero_eq] at h2
    subst h2
    simp only [Nat.le_zero_eq] at h1
    subst h1
    rfl
  · rfl

/-- The state left by `clear` of `src/keyboard.js`, for every depth of the call stack. -/
theorem src_clear_state (stack : Nat) (s : Session) (input : EditTarget)
    (hbound : s.targetInput = some input) (hwf : input.WellFormed) :
    (Src.clear stack s).targetInput = some ⟨js "", 0, 0⟩ ∧
    (Src.clear stack s).isShift = s.isShift ∧
    (Src.clear stack s).isCapsLock = s.isCapsLock ∧
    (Src.clear stack s).currentLanguage = s.currentLanguage := by
  induction stack generalizing s input with
  | zero =>
    simp [Src.clear, Src.emit, Session.record, clearEdit_fields,
      clearEdit_target s input hbound hwf]
  | succ n ih =>
    have hwf0 : EditTarget.WellFormed ⟨js "", 0, 0⟩ := by
      constructor <;> simp [js]
    have hb : (Src.emit (js "clear") none (clearEdit s)).targetInput = some ⟨js "", 0, 0⟩ := by
      simp [Src.emit, Session.record, clearEdit_target s input hbound hwf]
    have hf : (Src.emit (js "clear") none (clearEdit s)).isShift = s.isShift ∧
        (Src.emit (js "clear") none (clearEdit s)).isCapsLock = s.isCapsLock ∧
        (Src.emit (js "clear") none (clearEdit s)).currentLanguage = s.currentLanguage := by
      simp [Src.emit, Session.record, clearEdit_fields]
    obtain ⟨h1, h2, h3, h4⟩ := ih _ _ hb hwf0
    rw [Src.clear]
    exact ⟨h1, h2.trans hf.1, h3.trans hf.2.1, h4.trans hf.2.2⟩

/-- C14: for every bound, well-formed field, whatever its value and selection, `clear()`
leaves the field with the empty value and `selectionStart = selectionEnd = 0`, and leaves
`isShift`, `isCapsLock` and the current language as they were: in `dist/keyboard.js`, and
in `src/keyboard.js` for every depth `stack` the call stack allows to the calls that
`clear` makes to itself through its `mlk:clear` listener. -/
theorem C14_clear_empties_the_field (s : Session) (input : EditTarget) (stack : Nat)
    (hbound : s.targetInput = some input) (hwf : input.WellFormed) :
    ((Src.clear stack s).targetInput = some ⟨js "", 0, 0⟩ ∧
      (Src.clear stack s).isShift = s.isShift ∧
      (Src.clear stack s).isCapsLock = s.isCapsLock ∧
      (Src.clear stack s).currentLanguage = s.currentLanguage) ∧
    ((Dist.clear s).targetInput = some ⟨js "", 0, 0⟩ ∧
      (Dist.clear s).isShift = s.isShift ∧
      (Dist.clear s).isCapsLock = s.isCapsLock ∧
      (Dist.clear s).currentLanguage = s.currentLanguage) := by
  refine ⟨src_clear_state stack s input hbound hwf, ?_⟩
  unfold Dist.clear
  exact ⟨clearEdit_target s input hbound hwf, (clearEdit_fields s).1, (clearEdit_fields s).2.1,
    (clearEdit_fields s).2.2.1⟩

/-- C14 at the field `abc` with the selection `[1, 3)` and shift on. -/
theorem C14_clear_empties_the_field_witness :
    EditTarget.WellFormed ⟨js "abc", 1, 3⟩ ∧
    (Src.clear 2 (sampleSession true false (some ⟨js "abc", 1, 3⟩))).targetInput =
      some ⟨js "", 0, 0⟩ ∧
    (Dist.clear (sampleSession true false (some ⟨js "abc", 1, 3⟩))).targetInput =
      some ⟨js "", 0, 0⟩ ∧
    (Dist.clear (sampleSession true false (some ⟨js "abc", 1, 3⟩))).isShift = true :=
  ⟨by unfold EditTarget.WellFormed; decide,
   (C14_clear_empties_the_field (sampleSession true false (some ⟨js "abc", 1, 3⟩))
     ⟨js "abc", 1, 3⟩ 2 rfl (by unfold EditTarget.WellFormed; decide)).1.1,
   (C14_clear_empties_the_field (sampleSession true false (some ⟨js "abc", 1, 3⟩))
     ⟨js "abc", 1, 3⟩ 2 rfl (by unfold EditTarget.WellFormed; decide)).2.1,
   (C14_clear_empties_the_field (sampleSession true false (some ⟨js "abc", 1, 3⟩))
     ⟨js "abc", 1, 3⟩ 2 rfl (by unfold EditTarget.WellFormed; decide)).2.2.1⟩

/-! ## No bound field -/

/-- C15: with no bound field (`targetInput` is `null`), `insertText(text)` for every text
and `handleKey('Backspace')` raise no exception and leave the current language, `isShift`
and `isCapsLock` as they were, and no field is bound afterwards; `insertText` and
`Backspace` of `dist/keyboard.js` leave the whole session but its record of effects
untouched, and `insertText` of `dist/keyboard.js` the record too. -/
theorem C15_no_target_is_noop (text : JSString) (s : Session)
    (hnone : s.targetInput = none) :
    ((Src.insertText text s).targetInput = none ∧
      (Src.insertText text s).currentLanguage = s.currentLanguage ∧
      (Src.insertText text s).isShift = s.isShift ∧
      (Src.insertText text s).isCapsLock = s.isCapsLock ∧
      Dist.insertText text s = s) ∧
    ((Src.handleKey (js "Backspace") s).threw = none ∧
      (Src.handleKey (js "Backspace") s).state.targetInput = none ∧
      (Src.handleKey (js "Backspace") s).state.currentLanguage = s.currentLanguage ∧
      (Src.handleKey (js "Backspace") s).state.isShift = s.isShift ∧
      (Src.handleKey (js "Backspace") s).state.isCapsLock = s.isCapsLock) ∧
    ((Dist.handleKey (js "Backspace") s).threw = none ∧
      (Dist.handleKey (js "Backspace") s).state.targetInput = none ∧
      (Dist.handleKey (js "Backspace") s).state.currentLanguage = s.currentLanguage ∧
      (Dist.handleKey (js "Backspace") s).state.isShift = s.isShift ∧
      (Dist.handleKey (js "Backspace") s).state.isCapsLock = s.isCapsLock) := by
  have hi : insertEdit text s = s := by
    unfold insertEdit
    rw [hnone]
  have hb : (backspaceEdit s).targetInput = none := by
    unfold backspaceEdit
    rw [hnone]
    exact hnone
  have hs := src_handleKey_Backspace_state s
  have hd := dist_handleKey_Backspace_state s
  refine ⟨⟨?_, ?_, ?_, ?_, ?_⟩, ⟨hs.2.2.2.2, hs.1.trans hb, hs.2.2.2.1, hs.2.1, hs.2.2.1⟩,
    ⟨hd.2.2.2.2, hd.1.trans hb, hd.2.2.2.1, hd.2.1, hd.2.2.1⟩⟩
  · rw [(src_insertText_fields text s).2.2.2.1, hi, hnone]
  · exact (src_insertText_fields text s).2.2.1
  · exact (src_insertText_fields text s).1
  · exact (src_insertText_fields text s).2.1
  · unfold Dist.insertText
    exact hi

/-- C15 at a session with no bound field and shift on. -/
theorem C15_no_target_is_noop_witness :
    (sampleSession true false none).targetInput = none ∧
    (Src.insertText (js "x") (sampleSession true false none)).targetInput = none ∧
    (Src.handleKey (js "Backspace") (sampleSession true false none)).threw = none ∧
    (Dist.handleKey (js "Backspace") (sampleSession true false none)).state.isShift =
      (sampleSession true false none).isShift :=
  ⟨rfl,
   (C15_no_target_is_noop (js "x") (sampleSession true false none) rfl).1.1,
   (C15_no_target_is_noop (js "x") (sampleSession true false none) rfl).2.1.1,
   (C15_no_target_is_noop (js "x") (sampleSession true false none) rfl).2.2.2.2.2.1⟩

/-! ## All keys at once -/

/-- Every key is one of the labels of the `switch`, or reaches its `default` clause. -/
theorem key_cases (key : JSString) :
    key = js "Backspace" ∨ key = js "Space" ∨ key = js "Enter" ∨ key = js "Tab" ∨
    key = js "Shift" ∨ key = js "Caps" ∨
    (key = js "Ctrl" ∨ key = js "Win" ∨ key = js "Alt" ∨ key = js "Menu") ∨
    key ∉ controlTokens := by
  simp only [controlTokens, List.mem_cons, List.mem_singleton, List.not_mem_nil, or_false,
    not_or]
  tauto

/-- The keys `Ctrl`, `Win`, `Alt` and `Menu`: nothing but the notification and the
refocus. -/
theorem src_handleKey_meta (key : JSString) (s : Session)
    (h : key = js "Ctrl" ∨ key = js "Win" ∨ key = js "Alt" ∨ key = js "Menu") :
    Src.handleKey key s = { state := refocus (notifyKeyPress key s), threw := none } := by
  rcases h with h | h | h | h <;> subst h <;>
    simp [Src.handleKey, key_Backspace, key_Space, key_Enter, key_Tab, key_Shift, key_Caps,
      key_Ctrl, key_Win, key_Alt, key_Menu]

theorem dist_handleKey_meta (key : JSString) (s : Session)
    (h : key = js "Ctrl" ∨ key = js "Win" ∨ key = js "Alt" ∨ key = js "Menu") :
    Dist.handleKey key s = { state := refocus (notifyKeyPress key s), threw := none } := by
  rcases h with h | h | h | h <;> subst h <;>
    simp [Dist.handleKey, key_Backspace, key_Space, key_Enter, key_Tab, key_Shift, key_Caps,
      key_Ctrl, key_Win, key_Alt, key_Menu]

/-- What a key press does to the bound field: the edit of `Backspace`, the insertion of
a text, or nothing. -/
theorem src_handleKey_target (key : JSString) (s : Session) :
    (Src.handleKey key s).state.targetInput = (backspaceEdit s).targetInput ∨
    (∃ text, (Src.handleKey key s).state.targetInput = (insertEdit text s).targetInput) ∨
    (Src.handleKey key s).state.targetInput = s.targetInput := by
  have hn := (notifyKeyPress_fields key s).2.2.2.1
  rcases key_cases key with h | h | h | h | h | h | h | h
  · subst h
    exact Or.inl (src_handleKey_Backspace_state s).1
  · subst h
    refine Or.inr (Or.inl ⟨js " ", ?_⟩)
    rw [(src_handleKey_whitespace s).1]
    simp only [refocus_fields, src_insertText_fields]
    exact insertEdit_congr _ _ _ (notifyKeyPress_fields _ s).2.2.2.1
  · subst h
    refine Or.inr (Or.inl ⟨js "\n", ?_⟩)
    rw [(src_handleKey_whitespace s).2.1]
    simp only [refocus_fields, src_insertText_fields]
    exact insertEdit_congr _ _ _ (notifyKeyPress_fields _ s).2.2.2.1
  · subst h
    refine Or.inr (Or.inl ⟨js "\t", ?_⟩)
    rw [(src_handleKey_whitespace s).2.2]
    simp only [refocus_fields, src_insertText_fields]
    exact insertEdit_congr _ _ _ (notifyKeyPress_fields _ s).2.2.2.1
  · subst h
    refine Or.inr (Or.inr ?_)
    rw [src_handleKey_Shift]
    simp [renderKeys_fields, notifyKeyPress_fields]
  · subst h
    refine Or.inr (Or.inr ?_)
    rw [src_handleKey_Caps]
    simp [renderKeys_fields, notifyKeyPress_fields]
  · refine Or.inr (Or.inr ?_)
    rw [src_handleKey_meta key s h]
    simp [refocus_fields, hn]
  · exact Or.inr (Or.inl ⟨key, (src_handleKey_default_state key s h).1⟩)

theorem dist_handleKey_target (key : JSString) (s : Session) :
    (Dist.handleKey key s).state.targetInput = (backspaceEdit s).targetInput ∨
    (∃ text, (Dist.handleKey key s).state.targetInput = (insertEdit text s).targetInput) ∨
    (Dist.handleKey key s).state.targetInput = s.targetInput := by
  have hn := (notifyKeyPress_fields key s).2.2.2.1
  rcases key_cases key with h | h | h | h | h | h | h | h
  · subst h
    exact Or.inl (dist_handleKey_Backspace_state s).1
  · subst h
    refine Or.inr (Or.inl ⟨js " ", ?_⟩)
    rw [(dist_handleKey_whitespace s).1]
    simp only [refocus_fields, dist_insertText_fields]
    exact insertEdit_congr _ _ _ (notifyKeyPress_fields _ s).2.2.2.1
  · subst h
    refine Or.inr (Or.inl ⟨js "\n", ?_⟩)
    rw [(dist_handleKey_whitespace s).2.1]
    simp only [refocus_fields, dist_insertText_fields]
    exact insertEdit_congr _ _ _ (notifyKeyPress_fields _ s).2.2.2.1
  · subst h
    refine Or.inr (Or.inl ⟨js "\t", ?_⟩)
    rw [(dist_handleKey_whitespace s).2.2]
    simp only [refocus_fields, dist_insertText_fields]
    exact insertEdit_congr _ _ _ (notifyKeyPress_fields _ s).2.2.2.1
  · subst h
    refine Or.inr (Or.inr ?_)
    rw [dist_handleKey_Shift]
    simp [renderKeys_fields, notifyKeyPress_fields]
  · subst h
    refine Or.inr (Or.inr ?_)
    rw [dist_handleKey_Caps]
    simp [renderKeys_fields, notifyKeyPress_fields]
  · refine Or.inr (Or.inr ?_)
    rw [dist_handleKey_meta key s h]
    simp [refocus_fields, hn]
  · exact Or.inr (Or.inl ⟨key, (dist_handleKey_default_state key s h).1⟩)

/-! ## The invariant of the bound field -/

/-- A collapsing `setSelectionRange` leaves a well-formed field with a collapsed
selection, whatever the field and the position. -/
theorem setSelectionRange_collapsed (t : EditTarget) (p : Nat) :
    (t.setSelectionRange p p).WellFormed ∧
    (t.setSelectionRange p p).selectionStart = (t.setSelectionRange p p).selectionEnd := by
  unfold EditTarget.setSelectionRange EditTarget.WellFormed
  simp only
  omega

/-- After `insertEdit` the bound field is well-formed and its selection is collapsed. -/
theorem insertEdit_wellFormed (text : JSString) (s : Session) (input : EditTarget)
    (hbound : s.targetInput = some input) :
    ∃ out, (insertEdit text s).targetInput = some out ∧ out.WellFormed ∧
      out.selectionStart = out.selectionEnd := by
  unfold insertEdit
  rw [hbound]
  exact ⟨_, rfl, setSelectionRange_collapsed _ _⟩

/-- After `backspaceEdit` a well-formed field is well-formed again, and its selection is
collapsed when the value has changed. -/
theorem backspaceEdit_wellFormed (s : Session) (input : EditTarget)
    (hbound : s.targetInput = some input) (hwf : input.WellFormed) :
    ∃ out, (backspaceEdit s).targetInput = some out ∧ out.WellFormed ∧
      (out.value ≠ input.value → out.selectionStart = out.selectionEnd) := by
  unfold backspaceEdit
  rw [hbound]
  dsimp only
  split_ifs with h1 h2
  · exact ⟨_, rfl, (setSelectionRange_collapsed _ _).1,
      fun _ => (setSelectionRange_collapsed _ _).2⟩
  · exact ⟨_, rfl, (setSelectionRange_collapsed _ _).1,
      fun _ => (setSelectionRange_collapsed _ _).2⟩
  · exact ⟨input, hbound, hwf, fun h => absurd rfl h⟩

/-- C18: for every key symbol and every bound field with
`0 ≤ selectionStart ≤ selectionEnd ≤ value.length`, the field after `handleKey(key)`
satisfies the same bounds, and when the key has changed the value the selection is
collapsed afterwards, in both files. -/
theorem C18_handleKey_keeps_field_invariant (key : JSString) (s : Session)
    (input : EditTarget) (hbound : s.targetInput = some input) (hwf : input.WellFormed) :
    (∃ out, (Src.handleKey key s).state.targetInput = some out ∧ out.WellFormed ∧
      (out.value ≠ input.value → out.selectionStart = out.selectionEnd)) ∧
    (∃ out, (Dist.handleKey key s).state.targetInput = some out ∧ out.WellFormed ∧
      (out.value ≠ input.value → out.selectionStart = out.selectionEnd)) := by
  constructor
  · rcases src_handleKey_target key s with h | ⟨text, h⟩ | h
    · rw [h]
      exact backspaceEdit_wellFormed s input hbound hwf
    · rw [h]
      obtain ⟨out, ho, hw, hc⟩ := insertEdit_wellFormed text s input hbound
      exact ⟨out, ho, hw, fun _ => hc⟩
    · rw [h]
      exact ⟨input, hbound, hwf, fun h => absurd rfl h⟩
  · rcases dist_handleKey_target key s with h | ⟨text, h⟩ | h
    · rw [h]
      exact backspaceEdit_wellFormed s input hbound hwf
    · rw [h]
      obtain ⟨out, ho, hw, hc⟩ := insertEdit_wellFormed text s input hbound
      exact ⟨out, ho, hw, fun _ => hc⟩
    · rw [h]
      exact ⟨input, hbound, hwf, fun h => absurd rfl h⟩

/-- C18 at the key `q` and at `Backspace`, in the field `abc` with the selection
`[1, 3)`: the field becomes `aq` with the cursor at 2, and `a` with the cursor at 1. -/
theorem C18_handleKey_keeps_field_invariant_witness :
    EditTarget.WellFormed ⟨js "abc", 1, 3⟩ ∧
    (∃ out, (Src.handleKey (js "q")
        (sampleSession false false (some ⟨js "abc", 1, 3⟩))).state.targetInput = some out ∧
      out.WellFormed ∧ (out.value ≠ js "abc" → out.selectionStart = out.selectionEnd)) ∧
    (Src.handleKey (js "q")
      (sampleSession false false (some ⟨js "abc", 1, 3⟩))).state.targetInput =
      some ⟨js "aq", 2, 2⟩ ∧
    (Dist.handleKey (js "Backspace")
      (sampleSession false false (some ⟨js "abc", 1, 3⟩))).state.targetInput =
      some ⟨js "a", 1, 1⟩ :=
  ⟨by unfold EditTarget.WellFormed; decide,
   (C18_handleKey_keeps_field_invariant (js "q")
     (sampleSession false false (some ⟨js "abc", 1, 3⟩)) ⟨js "abc", 1, 3⟩ rfl
     (by unfold EditTarget.WellFormed; decide)).1,
   by decide, by decide⟩

/-! ## Sequences of calls and the modifier state -/

/-- What `switchLanguage` leaves alone, for every id. -/
theorem src_switchLanguage_fields (lang : JSString) (s : Session) :
    (Src.switchLanguage lang s).state.isShift = s.isShift ∧
    (Src.switchLanguage lang s).state.isCapsLock = s.isCapsLock ∧
    (Src.switchLanguage lang s).state.targetInput = s.targetInput ∧
    (Src.switchLanguage lang s).state.layouts = s.layouts := by
  have hf := render_fields { s with currentLanguage := lang }
  simp only at hf
  obtain ⟨hf1, hf2, _, hf4, hf5, _, _⟩ := hf
  unfold Src.switchLanguage
  generalize render { s with currentLanguage := lang } = o at hf1 hf2 hf4 hf5 ⊢
  rcases o with ⟨st, _ | e⟩ <;> simp only at hf1 hf2 hf4 hf5 <;>
    cases getLayout s.layouts lang <;>
    simp only [Outcome.andThen, Src.emit, Session.record] <;>
    (try split_ifs) <;> simp [hf1, hf2, hf4, hf5]

theorem dist_switchLanguage_fields (lang : JSString) (s : Session) :
    (Dist.switchLanguage lang s).state.isShift = s.isShift ∧
    (Dist.switchLanguage lang s).state.isCapsLock = s.isCapsLock ∧
    (Dist.switchLanguage lang s).state.targetInput = s.targetInput ∧
    (Dist.switchLanguage lang s).state.layouts = s.layouts := by
  have hf := render_fields { s with currentLanguage := lang }
  simp only at hf
  obtain ⟨hf1, hf2, _, hf4, hf5, _, _⟩ := hf
  unfold Dist.switchLanguage
  generalize render { s with currentLanguage := lang } = o at hf1 hf2 hf4 hf5 ⊢
  rcases o with ⟨st, _ | e⟩ <;> simp only at hf1 hf2 hf4 hf5 <;>
    cases getLayout s.layouts lang <;>
    simp only [Outcome.andThen, Session.record] <;>
    (try split_ifs) <;> simp [hf1, hf2, hf4, hf5]

/-- C17, as stated, fails: from the state the constructor leaves (shift off, caps lock
off), the key presses `Caps`, `Shift` lead to caps lock on with shift off, in both
files. -/
theorem C17_caps_then_shift_counterexample :
    ((Dist.create Dist.LAYOUTS defaultOptions none).threw = none ∧
      (Dist.create Dist.LAYOUTS defaultOptions none).state.isShift = false ∧
      (Dist.create Dist.LAYOUTS defaultOptions none).state.isCapsLock = false) ∧
    ((Dist.run [.handleKey (js "Caps"), .handleKey (js "Shift")]
        (Dist.create Dist.LAYOUTS defaultOptions none).state).isCapsLock = true ∧
      (Dist.run [.handleKey (js "Caps"), .handleKey (js "Shift")]
        (Dist.create Dist.LAYOUTS defaultOptions none).state).isShift = false) ∧
    ((Src.run [.handleKey (js "Caps"), .handleKey (js "Shift")]
        (sampleSession false false none)).isCapsLock = true ∧
      (Src.run [.handleKey (js "Caps"), .handleKey (js "Shift")]
        (sampleSession false false none)).isShift = false) := by
  decide

/-- Both files do the same to the modifier state, the bound field and the current
language, for every key and every session. -/
theorem handleKey_variants_agree (key : JSString) (s : Session) :
    (Src.handleKey key s).state.isShift = (Dist.handleKey key s).state.isShift ∧
    (Src.handleKey key s).state.isCapsLock = (Dist.handleKey key s).state.isCapsLock ∧
    (Src.handleKey key s).state.targetInput = (Dist.handleKey key s).state.targetInput ∧
    (Src.handleKey key s).state.currentLanguage =
      (Dist.handleKey key s).state.currentLanguage := by
  rcases key_cases key with h | h | h | h | h | h | h | h
  · subst h
    have hs := src_handleKey_Backspace_state s
    have hd := dist_handleKey_Backspace_state s
    exact ⟨hs.2.1.trans hd.2.1.symm, hs.2.2.1.trans hd.2.2.1.symm, hs.1.trans hd.1.symm,
      hs.2.2.2.1.trans hd.2.2.2.1.symm⟩
  · subst h
    rw [(src_handleKey_whitespace s).1, (dist_handleKey_whitespace s).1]
    simp [refocus_fields, src_insertText_fields, dist_insertText_fields]
  · subst h
    rw [(src_handleKey_whitespace s).2.1, (dist_handleKey_whitespace s).2.1]
    simp [refocus_fields, src_insertText_fields, dist_insertText_fields]
  · subst h
    rw [(src_handleKey_whitespace s).2.2, (dist_handleKey_whitespace s).2.2]
    simp [refocus_fields, src_insertText_fields, dist_insertText_fields]
  · subst h
    rw [src_handleKey_Shift, dist_handleKey_Shift]
    exact ⟨rfl, rfl, rfl, rfl⟩
  · subst h
    rw [src_handleKey_Caps, dist_handleKey_Caps]
    exact ⟨rfl, rfl, rfl, rfl⟩
  · rw [src_handleKey_meta key s h, dist_handleKey_meta key s h]
    exact ⟨rfl, rfl, rfl, rfl⟩
  · have hs := src_handleKey_default_state key s h
    have hd := dist_handleKey_default_state key s h
    exact ⟨hs.2.1.trans hd.2.1.symm, hs.2.2.1.trans hd.2.2.1.symm, hs.1.trans hd.1.symm,
      hs.2.2.2.1.trans hd.2.2.2.1.symm⟩

/-- A key press keeps "caps lock on implies shift on", unless it is `Shift` pressed while
caps lock is on. -/
theorem src_handleKey_keeps_caps_implies_shift (key : JSString) (s : Session)
    (hok : key ≠ js "Shift" ∨ s.isCapsLock = false)
    (hinv : s.isCapsLock = true → s.isShift = true) :
    (Src.handleKey key s).state.isCapsLock = true →
      (Src.handleKey key s).state.isShift = true := by
  rcases key_cases key with h | h | h | h | h | h | h | h
  · subst h
    rw [(src_handleKey_Backspace_state s).2.1, (src_handleKey_Backspace_state s).2.2.1]
    exact hinv
  · subst h
    rw [(src_handleKey_whitespace s).1]
    simpa [refocus_fields, src_insertText_fields, notifyKeyPress_fields] using hinv
  · subst h
    rw [(src_handleKey_whitespace s).2.1]
    simpa [refocus_fields, src_insertText_fields, notifyKeyPress_fields] using hinv
  · subst h
    rw [(src_handleKey_whitespace s).2.2]
    simpa [refocus_fields, src_insertText_fields, notifyKeyPress_fields] using hinv
  · subst h
    have hc : s.isCapsLock = false := hok.resolve_left (fun hne => hne rfl)
    rw [src_handleKey_Shift]
    simp [renderKeys_fields, notifyKeyPress_fields, hc]
  · subst h
    rw [src_handleKey_Caps]
    simp [renderKeys_fields]
  · rw [src_handleKey_meta key s h]
    simpa [refocus_fields, notifyKeyPress_fields] using hinv
  · rw [(src_handleKey_default_state key s h).2.1, (src_handleKey_default_state key s h).2.2.1]
    intro hc
    rw [hinv hc, hc]
    rfl

theorem dist_handleKey_keeps_caps_implies_shift (key : JSString) (s : Session)
    (hok : key ≠ js "Shift" ∨ s.isCapsLock = false)
    (hinv : s.isCapsLock = true → s.isShift = true) :
    (Dist.handleKey key s).state.isCapsLock = true →
      (Dist.handleKey key s).state.isShift = true := by
  have ha := handleKey_variants_agree key s
  rw [← ha.1, ← ha.2.1]
  exact src_handleKey_keeps_caps_implies_shift key s hok hinv

/-- Along calls among which no `Shift` is pressed while caps lock is on, "caps lock on
implies shift on" is kept. -/
theorem src_run_keeps_caps_implies_shift (actions : List Action) (s : Session)
    (hpath : Src.noShiftUnderCaps actions s = true)
    (hinv : s.isCapsLock = true → s.isShift = true) :
    (Src.run actions s).isCapsLock = true → (Src.run actions s).isShift = true := by
  induction actions generalizing s with
  | nil => exact hinv
  | cons a rest ih =>
    simp only [Src.noShiftUnderCaps, Bool.and_eq_true, Bool.or_eq_true, bne_iff_ne, ne_eq,
      Bool.not_eq_true'] at hpath
    refine ih (Src.step a s) hpath.2 ?_
    cases a with
    | handleKey key =>
      refine src_handleKey_keeps_caps_implies_shift key s ?_ hinv
      rcases hpath.1 with h | h
      · exact Or.inl (fun hk => h (by rw [hk]))
      · exact Or.inr h
    | switchLanguage lang =>
      simp only [Src.step]
      rw [(src_switchLanguage_fields lang s).1, (src_switchLanguage_fields lang s).2.1]
      exact hinv

theorem dist_run_keeps_caps_implies_shift (actions : List Action) (s : Session)
    (hpath : Dist.noShiftUnderCaps actions s = true)
    (hinv : s.isCapsLock = true → s.isShift = true) :
    (Dist.run actions s).isCapsLock = true → (Dist.run actions s).isShift = true := by
  induction actions generalizing s with
  | nil => exact hinv
  | cons a rest ih =>
    simp only [Dist.noShiftUnderCaps, Bool.and_eq_true, Bool.or_eq_true, bne_iff_ne, ne_eq,
      Bool.not_eq_true'] at hpath
    refine ih (Dist.step a s) hpath.2 ?_
    cases a with
    | handleKey key =>
      refine dist_handleKey_keeps_caps_implies_shift key s ?_ hinv
      rcases hpath.1 with h | h
      · exact Or.inl (fun hk => h (by rw [hk]))
      · exact Or.inr h
    | switchLanguage lang =>
      simp only [Dist.step]
      rw [(dist_switchLanguage_fields lang s).1, (dist_switchLanguage_fields lang s).2.1]
      exact hinv

/-- C17, amended: in every state reached from a state with caps lock off, such as the
initial state (shift off, caps lock off), by a finite sequence of key presses and language
switches in which no `Shift` key is pressed while caps lock is on, caps lock on implies
shift on, in both files. A `Shift` press made while caps lock and shift are on is what
breaks it: it leaves caps lock on and turns shift off. -/
theorem C17_caps_implies_shift_unless_shift_under_caps (actions : List Action)
    (s : Session) (hcaps : s.isCapsLock = false) :
    (Src.noShiftUnderCaps actions s = true →
      (Src.run actions s).isCapsLock = true → (Src.run actions s).isShift = true) ∧
    (Dist.noShiftUnderCaps actions s = true →
      (Dist.run actions s).isCapsLock = true → (Dist.run actions s).isShift = true) ∧
    (∀ t : Session, t.isCapsLock = true → t.isShift = true →
      ((Src.handleKey (js "Shift") t).state.isCapsLock = true ∧
        (Src.handleKey (js "Shift") t).state.isShift = false) ∧
      ((Dist.handleKey (js "Shift") t).state.isCapsLock = true ∧
        (Dist.handleKey (js "Shift") t).state.isShift = false)) := by
  have hinv : s.isCapsLock = true → s.isShift = true := by
    intro h
    rw [hcaps] at h
    exact absurd h (by decide)
  refine ⟨fun hp => src_run_keeps_caps_implies_shift actions s hp hinv,
    fun hp => dist_run_keeps_caps_implies_shift actions s hp hinv, ?_⟩
  intro t hc hs
  rw [src_handleKey_Shift, dist_handleKey_Shift]
  simp [renderKeys_fields, notifyKeyPress_fields, hc, hs]

/-- C17, amended, at the calls `Shift`, `a`, `Caps`, `a`, switch to `hindi`, `Space`:
the one `Shift` press is made with caps lock off, and at the end caps lock and shift are
both on. -/
theorem C17_caps_implies_shift_unless_shift_under_caps_witness :
    Dist.noShiftUnderCaps
      [Action.handleKey (js "Shift"), .handleKey (js "a"), .handleKey (js "Caps"),
        .handleKey (js "a"), .switchLanguage (js "hindi"), .handleKey (js "Space")]
      (sampleSession false false none) = true ∧
    (Dist.run
      [Action.handleKey (js "Shift"), .handleKey (js "a"), .handleKey (js "Caps"),
        .handleKey (js "a"), .switchLanguage (js "hindi"), .handleKey (js "Space")]
      (sampleSession false false none)).isCapsLock = true ∧
    (Dist.run
      [Action.handleKey (js "Shift"), .handleKey (js "a"), .handleKey (js "Caps"),
        .handleKey (js "a"), .switchLanguage (js "hindi"), .handleKey (js "Space")]
      (sampleSession false false none)).isShift = true :=
  ⟨by decide, by decide,
   (C17_caps_implies_shift_unless_shift_under_caps
     [Action.handleKey (js "Shift"), .handleKey (js "a"), .handleKey (js "Caps"),
       .handleKey (js "a"), .switchLanguage (js "hindi"), .handleKey (js "Space")]
     (sampleSession false false none) rfl).2.1 (by decide) (by decide)⟩

/-! ## The two files side by side -/

/-- The record of effects after `refocus`. -/
theorem refocus_log (s : Session) :
    (refocus s).log =
      s.log ++ (if s.targetInput.isSome then [Effect.focus, Effect.inputEvent] else []) := by
  unfold refocus
  cases h : s.targetInput <;> simp [Session.record]

/-- The edits of the bound field record nothing, and keep a bound field bound. -/
theorem edits_log (text : JSString) (s : Session) :
    (insertEdit text s).log = s.log ∧ (backspaceEdit s).log = s.log ∧
    (insertEdit text s).targetInput.isSome = s.targetInput.isSome ∧
    (backspaceEdit s).targetInput.isSome = s.targetInput.isSome := by
  unfold insertEdit backspaceEdit
  cases h : s.targetInput
  · simp [h]
  · dsimp only
    split_ifs <;> simp [h]

/-- C19, as stated, fails: there is no key and no session on which the two `handleKey`
functions leave different modifier states or different fields; in particular no
whitespace or control key after which one file changes `isShift` and the other does
not. -/
theorem C19_variants_differ_counterexample :
    ¬ ∃ (key : JSString) (s : Session),
      ((Src.handleKey key s).state.isShift, (Src.handleKey key s).state.isCapsLock,
        (Src.handleKey key s).state.targetInput) ≠
      ((Dist.handleKey key s).state.isShift, (Dist.handleKey key s).state.isCapsLock,
        (Dist.handleKey key s).state.targetInput) := by
  rintro ⟨key, s, h⟩
  obtain ⟨h1, h2, h3, _⟩ := handleKey_variants_agree key s
  exact h (by rw [h1, h2, h3])

/-- C19, amended: the two `handleKey` functions are equal as functions from (key,
modifier state, field) to (modifier state, field), and leave the same current language:
neither releases shift after a whitespace or control key. They differ in what they
report: `src/keyboard.js` emits the `backspace` event (and the `input` event in
`insertText`), `dist/keyboard.js` emits nothing, so the records of effects after
`Backspace` differ in every session. -/
theorem C19_variants_agree_on_state (key : JSString) (s : Session) :
    ((Src.handleKey key s).state.isShift = (Dist.handleKey key s).state.isShift ∧
      (Src.handleKey key s).state.isCapsLock = (Dist.handleKey key s).state.isCapsLock ∧
      (Src.handleKey key s).state.targetInput = (Dist.handleKey key s).state.targetInput ∧
      (Src.handleKey key s).state.currentLanguage =
        (Dist.handleKey key s).state.currentLanguage) ∧
    (Src.handleKey (js "Backspace") s).state.log ≠
      (Dist.handleKey (js "Backspace") s).state.log := by
  refine ⟨handleKey_variants_agree key s, ?_⟩
  rw [src_handleKey_Backspace, dist_handleKey_Backspace]
  intro h
  have hlen := congrArg List.length h
  simp only [refocus_log, Src.emit, Session.record, (edits_log [] _).2.1,
    (edits_log [] _).2.2.2, List.length_append, List.length_singleton] at hlen
  omega

/-! ## An id that is not registered but passes the guard -/

/-- C20 (code defect): a keyboard of `dist/keyboard.js` is created with the default
language `english`, which is in its layout table. The id `constructor` is not in the
table, yet `switchLanguage('constructor')` makes it the current language, because
`this.layouts['constructor']` reads the function inherited from `Object.prototype`. The
call ends in a `TypeError` raised by `renderKeys`, and so does the next `Shift` press.
`switchLanguage` of `src/keyboard.js` does the same. -/
theorem C20_inherited_name_passes_the_guard :
    ((Dist.create Dist.LAYOUTS defaultOptions none).threw = none ∧
      ((Dist.create Dist.LAYOUTS defaultOptions none).state.layouts.lookup
        (Dist.create Dist.LAYOUTS defaultOptions none).state.currentLanguage).isSome = true ∧
      (Dist.create Dist.LAYOUTS defaultOptions none).state.layouts.lookup
        (js "constructor") = none) ∧
    ((Dist.run [.switchLanguage (js "constructor")]
        (Dist.create Dist.LAYOUTS defaultOptions none).state).currentLanguage =
        js "constructor" ∧
      (Dist.run [.switchLanguage (js "constructor")]
        (Dist.create Dist.LAYOUTS defaultOptions none).state).layouts.lookup
        (Dist.run [.switchLanguage (js "constructor")]
          (Dist.create Dist.LAYOUTS defaultOptions none).state).currentLanguage = none ∧
      (Dist.switchLanguage (js "constructor")
        (Dist.create Dist.LAYOUTS defaultOptions none).state).threw = some .typeError ∧
      (Dist.handleKey (js "Shift")
        (Dist.run [.switchLanguage (js "constructor")]
          (Dist.create Dist.LAYOUTS defaultOptions none).state)).threw = some .typeError) ∧
    ((sampleSession false false none).layouts.lookup (js "constructor") = none ∧
      (Src.run [.switchLanguage (js "constructor")]
        (sampleSession false false none)).currentLanguage = js "constructor" ∧
      (Src.switchLanguage (js "constructor")
        (sampleSession false false none)).threw = some .typeError) := by
  decide

/-! ## The key-press notification -/

/-- Two extensions of a record that hold no key-press notification make one. -/
theorem quiet_trans {l₀ l₁ l₂ : List Effect}
    (h₁ : ∃ r, l₁ = l₀ ++ r ∧ ∀ e ∈ r, e.isKeyPress = false)
    (h₂ : ∃ r, l₂ = l₁ ++ r ∧ ∀ e ∈ r, e.isKeyPress = false) :
    ∃ r, l₂ = l₀ ++ r ∧ ∀ e ∈ r, e.isKeyPress = false := by
  obtain ⟨r₁, e₁, q₁⟩ := h₁
  obtain ⟨r₂, e₂, q₂⟩ := h₂
  refine ⟨r₁ ++ r₂, by rw [e₂, e₁, List.append_assoc], ?_⟩
  intro e he
  rcases List.mem_append.mp he with h | h
  · exact q₁ e h
  · exact q₂ e h

theorem refocus_quiet (s : Session) :
    ∃ r, (refocus s).log = s.log ++ r ∧ ∀ e ∈ r, e.isKeyPress = false := by
  refine ⟨_, refocus_log s, ?_⟩
  intro e he
  split_ifs at he
  · simp only [List.mem_cons, List.mem_singleton, List.not_mem_nil, or_false] at he
    rcases he with h | h <;> subst h <;> rfl
  · simp at he

theorem src_emit_quiet (eventName : JSString) (detail : Option JSString) (s : Session) :
    ∃ r, (Src.emit eventName detail s).log = s.log ++ r ∧ ∀ e ∈ r, e.isKeyPress = false := by
  refine ⟨[.emit eventName detail], rfl, ?_⟩
  intro e he
  simp only [List.mem_singleton] at he
  subst he
  rfl

theorem andThen_refocus_quiet (o : Outcome) :
    ∃ r, (o.andThen (fun s => { state := refocus s, threw := none })).state.log =
      o.state.log ++ r ∧ ∀ e ∈ r, e.isKeyPress = false := by
  rcases o with ⟨st, _ | err⟩
  · exact refocus_quiet st
  · exact ⟨[], by simp [Outcome.andThen], by simp⟩

/-- What a key press adds to the record after the notification holds no further
key-press notification. -/
theorem src_handleKey_quiet (key : JSString) (s : Session) :
    ∃ r, (Src.handleKey key s).state.log = (notifyKeyPress key s).log ++ r ∧
      ∀ e ∈ r, e.isKeyPress = false := by
  have hnil : ∀ l : List Effect, ∃ r, l = l ++ r ∧ ∀ e ∈ r, e.isKeyPress = false :=
    fun l => ⟨[], by simp, by simp⟩
  have hins : ∀ text, ∃ r, (refocus (Src.insertText text (notifyKeyPress key s))).log =
      (notifyKeyPress key s).log ++ r ∧ ∀ e ∈ r, e.isKeyPress = false := by
    intro text
    refine quiet_trans ?_ (refocus_quiet _)
    have h := src_emit_quiet (js "input") (some text) (insertEdit text (notifyKeyPress key s))
    rw [(edits_log text _).1] at h
    exact h
  rcases key_cases key with h | h | h | h | h | h | h | h
  · subst h
    rw [src_handleKey_Backspace]
    refine quiet_trans ?_ (refocus_quiet _)
    have h := src_emit_quiet (js "backspace") none
      (backspaceEdit (notifyKeyPress (js "Backspace") s))
    rw [(edits_log [] _).2.1] at h
    exact h
  · subst h
    rw [(src_handleKey_whitespace s).1]
    exact hins _
  · subst h
    rw [(src_handleKey_whitespace s).2.1]
    exact hins _
  · subst h
    rw [(src_handleKey_whitespace s).2.2]
    exact hins _
  · subst h
    rw [src_handleKey_Shift, (renderKeys_fields _).2.2.2.2.2.2]
    exact hnil _
  · subst h
    rw [src_handleKey_Caps, (renderKeys_fields _).2.2.2.2.2.2]
    exact hnil _
  · rw [src_handleKey_meta key s h]
    exact refocus_quiet _
  · rw [src_handleKey_default key s h]
    refine quiet_trans ?_ (andThen_refocus_quiet _)
    have h := src_emit_quiet (js "input") (some key) (insertEdit key (notifyKeyPress key s))
    rw [(edits_log key _).1] at h
    split_ifs
    · rw [(renderKeys_fields _).2.2.2.2.2.2]
      exact h
    · exact h

theorem dist_handleKey_quiet (key : JSString) (s : Session) :
    ∃ r, (Dist.handleKey key s).state.log = (notifyKeyPress key s).log ++ r ∧
      ∀ e ∈ r, e.isKeyPress = false := by
  have hnil : ∀ l : List Effect, ∃ r, l = l ++ r ∧ ∀ e ∈ r, e.isKeyPress = false :=
    fun l => ⟨[], by simp, by simp⟩
  have hins : ∀ text, ∃ r, (refocus (Dist.insertText text (notifyKeyPress key s))).log =
      (notifyKeyPress key s).log ++ r ∧ ∀ e ∈ r, e.isKeyPress = false := by
    intro text
    refine quiet_trans ?_ (refocus_quiet _)
    unfold Dist.insertText
    rw [(edits_log text _).1]
    exact hnil _
  rcases key_cases key with h | h | h | h | h | h | h | h
  · subst h
    rw [dist_handleKey_Backspace]
    refine quiet_trans ?_ (refocus_quiet _)
    rw [(edits_log [] _).2.1]
    exact hnil _
  · subst h
    rw [(dist_handleKey_whitespace s).1]
    exact hins _
  · subst h
    rw [(dist_handleKey_whitespace s).2.1]
    exact hins _
  · subst h
    rw [(dist_handleKey_whitespace s).2.2]
    exact hins _
  · subst h
    rw [dist_handleKey_Shift, (renderKeys_fields _).2.2.2.2.2.2]
    exact hnil _
  · subst h
    rw [dist_handleKey_Caps, (renderKeys_fields _).2.2.2.2.2.2]
    exact hnil _
  · rw [dist_handleKey_meta key s h]
    exact refocus_quiet _
  · rw [dist_handleKey_default key s h]
    refine quiet_trans ?_ (andThen_refocus_quiet _)
    have h : ∃ r, (Dist.insertText key (notifyKeyPress key s)).log =
        (notifyKeyPress key s).log ++ r ∧ ∀ e ∈ r, e.isKeyPress = false := by
      unfold Dist.insertText
      rw [(edits_log key _).1]
      exact hnil _
    split_ifs
    · rw [(renderKeys_fields _).2.2.2.2.2.2]
      exact h
    · exact h

/-! ### The rest of the call does not read `options` -/

theorem withOptions_fields (s : Session) (o : Options) :
    (s.withOptions o).isShift = s.isShift ∧ (s.withOptions o).isCapsLock = s.isCapsLock ∧
    (s.withOptions o).targetInput = s.targetInput ∧ (s.withOptions o).options = o ∧
    (s.withOptions o).withOptions s.options = s ∧
    (∀ o₂, (s.withOptions o).withOptions o₂ = s.withOptions o₂) :=
  ⟨rfl, rfl, rfl, rfl, rfl, fun _ => rfl⟩

theorem record_withOptions (s : Session) (o : Options) (e : Effect) :
    (s.withOptions o).record e = (s.record e).withOptions o := rfl

theorem setShift_withOptions (s : Session) (o : Options) (b : Bool) :
    { s.withOptions o with isShift := b } = { s with isShift := b }.withOptions o := rfl

theorem setCaps_withOptions (s : Session) (o : Options) (b c : Bool) :
    { s.withOptions o with isCapsLock := c, isShift := b } =
      { s with isCapsLock := c, isShift := b }.withOptions o := rfl

theorem refocus_withOptions (s : Session) (o : Options) :
    refocus (s.withOptions o) = (refocus s).withOptions o := by
  unfold refocus Session.withOptions
  cases h : s.targetInput <;> simp [Session.record, h]

theorem insertEdit_withOptions (text : JSString) (s : Session) (o : Options) :
    insertEdit text (s.withOptions o) = (insertEdit text s).withOptions o := by
  unfold insertEdit Session.withOptions
  cases h : s.targetInput <;> simp [h]

theorem backspaceEdit_withOptions (s : Session) (o : Options) :
    backspaceEdit (s.withOptions o) = (backspaceEdit s).withOptions o := by
  rcases s with ⟨op, cl, sh, ca, ti, la, ls, kd, co, lg⟩
  cases ti with
  | none => rfl
  | some input =>
    simp only [backspaceEdit, Session.withOptions]
    split_ifs <;> rfl

theorem renderKeys_withOptions (s : Session) (o : Options) :
    renderKeys (s.withOptions o) =
      { state := (renderKeys s).state.withOptions o, threw := (renderKeys s).threw } := by
  unfold renderKeys Session.withOptions
  simp only
  cases h : getLayout s.layouts s.currentLanguage <;> simp [keyButton]

theorem src_insertText_withOptions (text : JSString) (s : Session) (o : Options) :
    Src.insertText text (s.withOptions o) = (Src.insertText text s).withOptions o := by
  unfold Src.insertText Src.emit
  rw [insertEdit_withOptions, record_withOptions]

theorem dist_insertText_withOptions (text : JSString) (s : Session) (o : Options) :
    Dist.insertText text (s.withOptions o) = (Dist.insertText text s).withOptions o := by
  unfold Dist.insertText
  rw [insertEdit_withOptions]

theorem andThen_refocus_withOptions (r : Outcome) (o : Options) :
    Outcome.andThen { state := r.state.withOptions o, threw := r.threw }
        (fun s => { state := refocus s, threw := none }) =
      { state := (r.andThen (fun s => { state := refocus s, threw := none })).state.withOptions o,
        threw := (r.andThen (fun s => { state := refocus s, threw := none })).threw } := by
  rcases r with ⟨st, _ | e⟩ <;> simp [Outcome.andThen, refocus_withOptions]

/-- A call of `handleKey` depends on its session only through the state left by the
notification; with other options in that state, the call does the same and carries the
options along. -/
theorem src_handleKey_withOptions (key : JSString) (s₁ s₂ y : Session) (o : Options)
    (h₁ : notifyKeyPress key s₁ = y) (h₂ : notifyKeyPress key s₂ = y.withOptions o) :
    Src.handleKey key s₂ =
      { state := (Src.handleKey key s₁).state.withOptions o,
        threw := (Src.handleKey key s₁).threw } := by
  have f₁ := notifyKeyPress_fields key s₁
  have f₂ := notifyKeyPress_fields key s₂
  rw [h₁] at f₁
  rw [h₂] at f₂
  have e₁ : s₁.isShift = y.isShift := f₁.1.symm
  have e₂ : s₂.isShift = y.isShift := f₂.1.symm
  have c₁ : s₁.isCapsLock = y.isCapsLock := f₁.2.1.symm
  have c₂ : s₂.isCapsLock = y.isCapsLock := f₂.2.1.symm
  rcases key_cases key with h | h | h | h | h | h | h | h
  · subst h
    rw [src_handleKey_Backspace, src_handleKey_Backspace, h₁, h₂, backspaceEdit_withOptions]
    simp only [Src.emit, record_withOptions, refocus_withOptions]
  · subst h
    rw [(src_handleKey_whitespace _).1, (src_handleKey_whitespace _).1, h₁, h₂,
      src_insertText_withOptions, refocus_withOptions]
  · subst h
    rw [(src_handleKey_whitespace _).2.1, (src_handleKey_whitespace _).2.1, h₁, h₂,
      src_insertText_withOptions, refocus_withOptions]
  · subst h
    rw [(src_handleKey_whitespace _).2.2, (src_handleKey_whitespace _).2.2, h₁, h₂,
      src_insertText_withOptions, refocus_withOptions]
  · subst h
    rw [src_handleKey_Shift, src_handleKey_Shift, h₁, h₂, e₁, e₂]
    exact renderKeys_withOptions { y with isShift := !y.isShift } o
  · subst h
    rw [src_handleKey_Caps, src_handleKey_Caps, h₁, h₂, c₁, c₂]
    exact renderKeys_withOptions
      { y with isCapsLock := !y.isCapsLock, isShift := !y.isCapsLock } o
  · rw [src_handleKey_meta _ _ h, src_handleKey_meta _ _ h, h₁, h₂, refocus_withOptions]
  · rw [src_handleKey_default _ _ h, src_handleKey_default _ _ h, h₁, h₂,
      src_insertText_withOptions]
    by_cases hc : (Src.insertText key y).isShift = true ∧
        (Src.insertText key y).isCapsLock = false
    · have hc' : ((Src.insertText key y).withOptions o).isShift = true ∧
          ((Src.insertText key y).withOptions o).isCapsLock = false := hc
      rw [if_pos hc, if_pos hc']
      exact (congrArg (fun r => Outcome.andThen r (fun s => { state := refocus s, threw := none }))
        (renderKeys_withOptions { Src.insertText key y with isShift := false } o)).trans
        (andThen_refocus_withOptions _ o)
    · have hc' : ¬ (((Src.insertText key y).withOptions o).isShift = true ∧
          ((Src.insertText key y).withOptions o).isCapsLock = false) := hc
      rw [if_neg hc, if_neg hc']
      exact andThen_refocus_withOptions { state := Src.insertText key y, threw := none } o

theorem dist_handleKey_withOptions (key : JSString) (s₁ s₂ y : Session) (o : Options)
    (h₁ : notifyKeyPress key s₁ = y) (h₂ : notifyKeyPress key s₂ = y.withOptions o) :
    Dist.handleKey key s₂ =
      { state := (Dist.handleKey key s₁).state.withOptions o,
        threw := (Dist.handleKey key s₁).threw } := by
  have f₁ := notifyKeyPress_fields key s₁
  have f₂ := notifyKeyPress_fields key s₂
  rw [h₁] at f₁
  rw [h₂] at f₂
  have e₁ : s₁.isShift = y.isShift := f₁.1.symm
  have e₂ : s₂.isShift = y.isShift := f₂.1.symm
  have c₁ : s₁.isCapsLock = y.isCapsLock := f₁.2.1.symm
  have c₂ : s₂.isCapsLock = y.isCapsLock := f₂.2.1.symm
  rcases key_cases key with h | h | h | h | h | h | h | h
  · subst h
    rw [dist_handleKey_Backspace, dist_handleKey_Backspace, h₁, h₂, backspaceEdit_withOptions]
    simp only [Src.emit, record_withOptions, refocus_withOptions]
  · subst h
    rw [(dist_handleKey_whitespace _).1, (dist_handleKey_whitespace _).1, h₁, h₂,
      dist_insertText_withOptions, refocus_withOptions]
  · subst h
    rw [(dist_handleKey_whitespace _).2.1, (dist_handleKey_whitespace _).2.1, h₁, h₂,
      dist_insertText_withOptions, refocus_withOptions]
  · subst h
    rw [(dist_handleKey_whitespace _).2.2, (dist_handleKey_whitespace _).2.2, h₁, h₂,
      dist_insertText_withOptions, refocus_withOptions]
  · subst h
    rw [dist_handleKey_Shift, dist_handleKey_Shift, h₁, h₂, e₁, e₂]
    exact renderKeys_withOptions { y with isShift := !y.isShift } o
  · subst h
    rw [dist_handleKey_Caps, dist_handleKey_Caps, h₁, h₂, c₁, c₂]
    exact renderKeys_withOptions
      { y with isCapsLock := !y.isCapsLock, isShift := !y.isCapsLock } o
  · rw [dist_handleKey_meta _ _ h, dist_handleKey_meta _ _ h, h₁, h₂, refocus_withOptions]
  · rw [dist_handleKey_default _ _ h, dist_handleKey_default _ _ h, h₁, h₂,
      dist_insertText_withOptions]
    by_cases hc : (Dist.insertText key y).isShift = true ∧
        (Dist.insertText key y).isCapsLock = false
    · have hc' : ((Dist.insertText key y).withOptions o).isShift = true ∧
          ((Dist.insertText key y).withOptions o).isCapsLock = false := hc
      rw [if_pos hc, if_pos hc']
      exact (congrArg (fun r => Outcome.andThen r (fun s => { state := refocus s, threw := none }))
        (renderKeys_withOptions { Dist.insertText key y with isShift := false } o)).trans
        (andThen_refocus_withOptions _ o)
    · have hc' : ¬ (((Dist.insertText key y).withOptions o).isShift = true ∧
          ((Dist.insertText key y).withOptions o).isCapsLock = false) := hc
      rw [if_neg hc, if_neg hc']
      exact andThen_refocus_withOptions { state := Dist.insertText key y, threw := none } o

/-- C16: for every key symbol and every session with an `onKeyPress` callback,
`handleKey(key)` calls the callback exactly once, with the raw key, and that call is the
first effect of `handleKey`. The callback finds the bound field, the modifier state and
the current language exactly as they were before the call, so it precedes every change to
the field and to the modifiers; in the record of effects the notification is followed by
effects that are no key-press notification (the `input` and `backspace` events, the
refocus); and everything else `handleKey` does is what the same call without callback
does from the state in which the notification has been made, in both files. -/
theorem C16_key_press_notification_comes_first (key : JSString) (s : Session) (o : Options)
    (hcb : s.options.onKeyPress = true) (ho : o.onKeyPress = false) :
    ((∃ rest, (Src.handleKey key s).state.log =
          s.log ++ Effect.onKeyPress key
            { targetInput := s.targetInput, isShift := s.isShift,
              isCapsLock := s.isCapsLock, currentLanguage := s.currentLanguage } :: rest ∧
        ∀ e ∈ rest, e.isKeyPress = false) ∧
      Src.handleKey key ((s.record (.onKeyPress key s.observed)).withOptions o) =
        { state := (Src.handleKey key s).state.withOptions o,
          threw := (Src.handleKey key s).threw }) ∧
    ((∃ rest, (Dist.handleKey key s).state.log =
          s.log ++ Effect.onKeyPress key
            { targetInput := s.targetInput, isShift := s.isShift,
              isCapsLock := s.isCapsLock, currentLanguage := s.currentLanguage } :: rest ∧
        ∀ e ∈ rest, e.isKeyPress = false) ∧
      Dist.handleKey key ((s.record (.onKeyPress key s.observed)).withOptions o) =
        { state := (Dist.handleKey key s).state.withOptions o,
          threw := (Dist.handleKey key s).threw }) := by
  have hn : notifyKeyPress key s = s.record (.onKeyPress key s.observed) := by
    simp [notifyKeyPress, hcb]
  have hn' : notifyKeyPress key ((s.record (.onKeyPress key s.observed)).withOptions o) =
      (s.record (.onKeyPress key s.observed)).withOptions o := by
    simp [notifyKeyPress, Session.withOptions, ho]
  have hlog : (notifyKeyPress key s).log = s.log ++ [Effect.onKeyPress key s.observed] := by
    rw [hn]
    rfl
  obtain ⟨rs, es, qs⟩ := src_handleKey_quiet key s
  obtain ⟨rd, ed, qd⟩ := dist_handleKey_quiet key s
  rw [hlog, List.append_assoc, List.singleton_append] at es ed
  exact ⟨⟨⟨rs, es, qs⟩, src_handleKey_withOptions key s _ _ o hn hn'⟩,
    ⟨⟨rd, ed, qd⟩, dist_handleKey_withOptions key s _ _ o hn hn'⟩⟩

/-- C16 at the key `Backspace` in the field `ab` with the cursor at 1, and at the key
`Shift` with shift off: the callback finds the field still holding `ab`, and shift still
off, although the call deletes a letter, and turns shift on. -/
theorem C16_key_press_notification_comes_first_witness :
    (sampleSession false false (some ⟨js "ab", 1, 1⟩)).options.onKeyPress = true ∧
    (Src.handleKey (js "Backspace")
      (sampleSession false false (some ⟨js "ab", 1, 1⟩))).state.log =
      [.onKeyPress (js "Backspace") ⟨some ⟨js "ab", 1, 1⟩, false, false, js "sample"⟩,
       .emit (js "backspace") none, .focus, .inputEvent] ∧
    (Src.handleKey (js "Backspace")
      (sampleSession false false (some ⟨js "ab", 1, 1⟩))).state.targetInput =
      some ⟨js "b", 0, 0⟩ ∧
    (Dist.handleKey (js "Shift") (sampleSession false false none)).state.log =
      [.onKeyPress (js "Shift") ⟨none, false, false, js "sample"⟩] ∧
    (Dist.handleKey (js "Shift") (sampleSession false false none)).state.isShift = true ∧
    (∃ rest, (Dist.handleKey (js "Backspace")
        (sampleSession false false (some ⟨js "ab", 1, 1⟩))).state.log =
        (sampleSession false false (some ⟨js "ab", 1, 1⟩)).log ++
          Effect.onKeyPress (js "Backspace")
            ⟨some ⟨js "ab", 1, 1⟩, false, false, js "sample"⟩ :: rest ∧
      ∀ e ∈ rest, e.isKeyPress = false) :=
  ⟨rfl, by decide, by decide, by decide, by decide,
   (C16_key_press_notification_comes_first (js "Backspace")
     (sampleSession false false (some ⟨js "ab", 1, 1⟩))
     { language := js "sample", showControls := true, onKeyPress := false,
       onLanguageChange := true } rfl rfl).2.1⟩

end MLK
